import Mathlib

/-!
Verification of the incident simulation engine of the Smart-Infra-alerts
repository (src/generators/incidents.py).  The Python source is shallowly
embedded below: the mutable generator object becomes an explicit `GenState`,
`datetime` timestamps become rationals measured in seconds, the random draws
of `random.random()` / `random.randint` become explicit parameters, and the
fallible persistence collaborator becomes a record of `Except`-valued calls.
-/

namespace SmartInfra

/-- Fault kinds, translated from the `IncidentType` enum of
src/generators/incidents.py. -/
inductive IncidentType where
  | NORMAL
  | MEMORY_LEAK
  | CPU_SPIKE
  | DATABASE_SLOW
  | NETWORK_LATENCY
  | DISK_FULL
  | CONNECTION_LEAK
  | QUEUE_BACKLOG
  | GC_PRESSURE
  | ERROR_BURST
  deriving DecidableEq, Repr

/-- The `.value` string of each `IncidentType` enum member. -/
def incidentTypeValue : IncidentType → String
  | .NORMAL => "normal"
  | .MEMORY_LEAK => "memory_leak"
  | .CPU_SPIKE => "cpu_spike"
  | .DATABASE_SLOW => "database_slow"
  | .NETWORK_LATENCY => "network_latency"
  | .DISK_FULL => "disk_full"
  | .CONNECTION_LEAK => "connection_leak"
  | .QUEUE_BACKLOG => "queue_backlog"
  | .GC_PRESSURE => "gc_pressure"
  | .ERROR_BURST => "error_burst"

/-- One monitored service, translated from the `Service` dataclass.
Timestamps are rationals (seconds); `current_incident_id` is the opaque
handle returned by the persistence collaborator. -/
structure Service where
  name : String
  service_type : String
  base_cpu : Int := 20
  base_memory : Int := 40
  base_connections : Int := 10
  pods : List String := []
  current_incident : Option IncidentType := none
  incident_start_time : Option Rat := none
  incident_duration : Int := 0
  current_incident_id : Option String := none
  deriving DecidableEq, Repr

/-- The fleet, translated from the module-level `SERVICES` list. -/
def SERVICES : List Service := [
  { name := "user-api", service_type := "web", base_cpu := 25, base_memory := 45,
    pods := ["user-api-1", "user-api-2"] },
  { name := "payment-service", service_type := "web", base_cpu := 30, base_memory := 50,
    pods := ["payment-1", "payment-2", "payment-3"] },
  { name := "order-processor", service_type := "worker", base_cpu := 40, base_memory := 60,
    pods := ["order-proc-1"] },
  { name := "search-engine", service_type := "search", base_cpu := 35, base_memory := 70,
    pods := ["search-1", "search-2"] },
  { name := "user-db", service_type := "database", base_cpu := 50, base_memory := 80,
    base_connections := 50, pods := ["user-db-1"] },
  { name := "redis-cache", service_type := "cache", base_cpu := 15, base_memory := 30,
    pods := ["redis-1", "redis-2"] },
  { name := "message-queue", service_type := "queue", base_cpu := 20, base_memory := 35,
    pods := ["mq-1"] }]

/-- Static configuration of one fault pattern (duration range in seconds,
per-tick start probability, eligible service names). -/
structure PatternConfig where
  duration_range : Int × Int
  probability : Rat
  services : List String
  deriving DecidableEq, Repr

/-- The `incident_patterns` dictionary of `IncidentGenerator.__init__`, kept in
its Python declaration (insertion) order. -/
def incident_patterns : List (IncidentType × PatternConfig) := [
  (.MEMORY_LEAK, { duration_range := (120, 600), probability := 0.15,
                   services := ["user-api", "payment-service", "order-processor"] }),
  (.CPU_SPIKE, { duration_range := (60, 300), probability := 0.20,
                 services := ["user-api", "payment-service", "search-engine"] }),
  (.DATABASE_SLOW, { duration_range := (90, 450), probability := 0.12,
                     services := ["user-db"] }),
  (.NETWORK_LATENCY, { duration_range := (60, 240), probability := 0.18,
                       services := ["user-api", "payment-service"] }),
  (.DISK_FULL, { duration_range := (180, 900), probability := 0.08,
                 services := ["user-db", "search-engine"] }),
  (.CONNECTION_LEAK, { duration_range := (120, 480), probability := 0.10,
                       services := ["user-api", "payment-service", "user-db"] }),
  (.QUEUE_BACKLOG, { duration_range := (90, 360), probability := 0.14,
                     services := ["message-queue", "order-processor"] }),
  (.GC_PRESSURE, { duration_range := (90, 420), probability := 0.16,
                   services := ["user-api", "payment-service", "search-engine"] }),
  (.ERROR_BURST, { duration_range := (30, 180), probability := 0.22,
                   services := ["user-api", "payment-service", "order-processor"] })]

/-- `self.max_concurrent_incidents = 3`, set in `__init__` and never changed. -/
def max_concurrent_incidents : Nat := 3

/-- Mutable state of the `IncidentGenerator` object together with the global
`SERVICES` list it reads and mutates. -/
structure GenState where
  services : List Service
  total_incidents_generated : Nat
  generation_start_time : Rat
  deriving DecidableEq, Repr

/-- The count `sum(1 for s in SERVICES if s.current_incident is not None)`
computed inside `should_start_incident`. -/
def activeIncidentCount (services : List Service) : Nat :=
  services.countP (fun s => s.current_incident.isSome)

/-- Replace the element at position `i` by its image under `f` (in-place
mutation of one `Service` object of the fleet list). -/
def updateAt (i : Nat) (f : Service → Service) : List Service → List Service
  | [] => []
  | s :: rest =>
    match i with
    | 0 => f s :: rest
    | j + 1 => s :: updateAt j f rest

/-- The pattern scan of `should_start_incident`: walk the configured patterns
in declaration order; a pattern whose eligible-service list contains the
service's name consumes the next uniform draw, and the first such pattern
whose draw is below its probability is returned.  `i` indexes the next unused
draw of the stream `draws`. -/
def findPattern (name : String) (draws : Nat → Rat) :
    Nat → List (IncidentType × PatternConfig) → Option IncidentType
  | _, [] => none
  | i, (t, cfg) :: rest =>
    if cfg.services.contains name then
      if draws i < cfg.probability then some t
      else findPattern name draws (i + 1) rest
    else findPattern name draws i rest

/-- `IncidentGenerator.should_start_incident`, lines 194-223.
`runtime_seconds` is `(datetime.now() - self.generation_start_time)` in
seconds; the result pairs the selected fault kind (if any) with the updated
generator state (the total-generated counter). -/
def should_start_incident (st : GenState) (service : Service)
    (runtime_seconds : Rat) (draws : Nat → Rat) : Option IncidentType × GenState :=
  if service.current_incident.isSome then (none, st)
  else if max_concurrent_incidents ≤ activeIncidentCount st.services then (none, st)
  else if 8 < runtime_seconds / 3600 then (none, st)
  else if 50 < st.total_incidents_generated then (none, st)
  else
    match findPattern service.name draws 0 incident_patterns with
    | some t =>
      (some t, { st with total_incidents_generated := st.total_incidents_generated + 1 })
    | none => (none, st)

/-- `IncidentGenerator.should_end_incident`, lines 225-242.  `now` is the
current wall-clock time in seconds. -/
def should_end_incident (service : Service) (now : Rat) : Bool :=
  if service.current_incident.isNone then false
  else
    match service.incident_start_time with
    | none => true
    | some t0 =>
      if 3600 < now - t0 then true
      else decide ((service.incident_duration : Rat) ≤ now - t0)

/-- The persistence collaborator (src/database/db_service.py seen through its
interface): every call may fail, modelled as an `Except` result. -/
structure DbService where
  create_incident : String → String → Except String String
  update_incident_status : String → String → Except String Unit
  insert_metric : String → String → String → Rat → Except String Unit
  insert_log : String → String → String → String → Except String Unit

/-- A collaborator that raises on every call. -/
def failing_db : DbService where
  create_incident := fun _ _ => .error "connection refused"
  update_incident_status := fun _ _ => .error "connection refused"
  insert_metric := fun _ _ _ _ => .error "connection refused"
  insert_log := fun _ _ _ _ => .error "connection refused"

/-- A collaborator whose every call succeeds. -/
def ok_db : DbService where
  create_incident := fun t s => .ok (t ++ "@" ++ s)
  update_incident_status := fun _ _ => .ok ()
  insert_metric := fun _ _ _ _ => .ok ()
  insert_log := fun _ _ _ _ => .ok ()

/-- `IncidentGenerator.push_log`, lines 139-176: the Loki post and the
database insert are each wrapped in `try/except`, so the emitted log line
(level, message) is produced whether or not the collaborator call fails. -/
def push_log (db : DbService) (service : String) (pod : String)
    (level : String) (message : String) : String × String :=
  match db.insert_log service pod level message with
  | .ok _ => (level, message)
  | .error _ => (level, message)

/-- `IncidentGenerator.store_metric`, lines 178-192: the database insert is
wrapped in `try/except`; the metric observation itself is unaffected. -/
def store_metric (db : DbService) (service : String) (pod : String)
    (metric_name : String) (metric_value : Rat) : String × Rat :=
  match db.insert_metric service pod metric_name metric_value with
  | .ok _ => (metric_name, metric_value)
  | .error _ => (metric_name, metric_value)

/-- Telemetry produced by one generator call for one pod: the gauge/histogram
observations (metric name, value) and the log lines (level, message). -/
structure GenOut where
  metrics : List (String × Rat)
  logs : List (String × String)
  deriving DecidableEq, Repr

/-- `IncidentGenerator.generate_memory_leak_incident`, lines 244-270.
`cpu_draw` is `random.randint(5, 15)` and `gc_draw` is
`random.randint(100, 500)`. -/
def generate_memory_leak_incident (db : DbService) (service : Service)
    (pod : String) (elapsed_time : Nat) (cpu_draw gc_draw : Int) : GenOut :=
  let memory_growth : Int := min 50 ((elapsed_time / 5 : Nat) : Int)
  let memory : Int := min 98 (service.base_memory + memory_growth)
  let cpu : Int := service.base_cpu + cpu_draw
  { metrics := [
      store_metric db service.name pod "memory_usage" (memory : Rat),
      store_metric db service.name pod "cpu_usage" (cpu : Rat),
      store_metric db service.name pod "gc_time_ms" (gc_draw : Rat)],
    logs :=
      if elapsed_time < 30 then
        [push_log db service.name pod "warn"
          ("Memory usage climbing: " ++ toString memory ++ "%")]
      else if elapsed_time < 120 then
        [push_log db service.name pod "error" "OutOfMemoryError: Java heap space",
         push_log db service.name pod "warn" "GC overhead limit exceeded"]
      else
        [push_log db service.name pod "error" "Failed to allocate memory for user session",
         push_log db service.name pod "error" "Application becoming unresponsive"] }

/-- `IncidentGenerator.generate_cpu_spike_incident`, lines 272-283.
`cpu_draw` is `random.randint(91, 99)`, `mem_draw` is `random.randint(5, 15)`
and `resp_draw` is `random.uniform(2.0, 8.0)`. -/
def generate_cpu_spike_incident (db : DbService) (service : Service)
    (pod : String) (cpu_draw mem_draw : Int) (resp_draw : Rat) : GenOut :=
  let cpu : Int := cpu_draw
  let memory : Int := service.base_memory + mem_draw
  { metrics := [
      ("cpu_usage", (cpu : Rat)),
      ("memory_usage", (memory : Rat)),
      ("response_time_seconds", resp_draw)],
    logs := [
      push_log db service.name pod "warn"
        ("High CPU usage detected: " ++ toString cpu ++ "%"),
      push_log db service.name pod "error" "Thread pool queue at capacity",
      push_log db service.name pod "warn" "Request processing delays detected"] }

/-- `IncidentGenerator.generate_database_slow_incident`, lines 285-298.
`cpu_draw` is `randint(10, 30)`, `mem_draw` is `randint(5, 20)`,
`resp_draw` is `uniform(5.0, 15.0)` and `slow_draw` is `randint(5, 15)`. -/
def generate_database_slow_incident (db : DbService) (service : Service)
    (pod : String) (elapsed_time : Nat) (cpu_draw mem_draw : Int)
    (resp_draw : Rat) (slow_draw : Int) : GenOut :=
  let cpu : Int := service.base_cpu + cpu_draw
  let memory : Int := service.base_memory + mem_draw
  let connections : Int := min 200 (service.base_connections + ((elapsed_time / 3 : Nat) : Int))
  { metrics := [
      ("cpu_usage", (cpu : Rat)),
      ("memory_usage", (memory : Rat)),
      ("db_connections", (connections : Rat)),
      ("response_time_seconds", resp_draw)],
    logs := [
      push_log db service.name pod "warn"
        ("Slow query detected: SELECT * FROM users (took " ++ toString slow_draw ++ "s)"),
      push_log db service.name pod "error"
        ("Connection pool reaching limit: " ++ toString connections ++ "/200"),
      push_log db service.name pod "warn" "Query timeout threshold exceeded"] }

/-- `IncidentGenerator.generate_network_latency_incident`, lines 300-313.
`cpu_draw` is `randint(0, 10)`, `mem_draw` is `randint(0, 10)`,
`latency_draw` is `randint(500, 2000)` and `err_draw` is `randint(5, 25)`. -/
def generate_network_latency_incident (db : DbService) (service : Service)
    (pod : String) (cpu_draw mem_draw latency_draw err_draw : Int) : GenOut :=
  let cpu : Int := service.base_cpu + cpu_draw
  let memory : Int := service.base_memory + mem_draw
  { metrics := [
      ("cpu_usage", (cpu : Rat)),
      ("memory_usage", (memory : Rat)),
      ("network_latency_ms", (latency_draw : Rat)),
      ("error_rate", (err_draw : Rat))],
    logs := [
      push_log db service.name pod "error"
        ("Network timeout to external service (latency: " ++ toString latency_draw ++ "ms)"),
      push_log db service.name pod "warn" "Increased retry attempts for external calls",
      push_log db service.name pod "error" "Circuit breaker opened for external service"] }

/-- `IncidentGenerator.generate_disk_full_incident`, lines 315-329.
`cpu_draw` is `random.randint(5, 15)`. -/
def generate_disk_full_incident (db : DbService) (service : Service)
    (pod : String) (elapsed_time : Nat) (cpu_draw : Int) : GenOut :=
  let disk_percent : Int := min 99 (70 + ((elapsed_time / 10 : Nat) : Int))
  let cpu : Int := service.base_cpu + cpu_draw
  let memory : Int := service.base_memory
  { metrics := [
      ("cpu_usage", (cpu : Rat)),
      ("memory_usage", (memory : Rat)),
      ("disk_usage", (disk_percent : Rat))],
    logs :=
      if 90 < disk_percent then
        [push_log db service.name pod "error"
          ("Disk space critical: " ++ toString disk_percent ++ "% used"),
         push_log db service.name pod "error"
          "Failed to write log file: No space left on device"]
      else
        [push_log db service.name pod "warn"
          ("Disk space warning: " ++ toString disk_percent ++ "% used")] }

/-- `IncidentGenerator.generate_connection_leak_incident`, lines 331-344.
`cpu_draw` is `randint(0, 10)` and `mem_draw` is `randint(10, 25)`. -/
def generate_connection_leak_incident (db : DbService) (service : Service)
    (pod : String) (elapsed_time : Nat) (cpu_draw mem_draw : Int) : GenOut :=
  let connections : Int := min 150 (service.base_connections + ((elapsed_time / 2 : Nat) : Int))
  let cpu : Int := service.base_cpu + cpu_draw
  let memory : Int := service.base_memory + mem_draw
  { metrics := [
      ("cpu_usage", (cpu : Rat)),
      ("memory_usage", (memory : Rat)),
      ("db_connections", (connections : Rat))],
    logs :=
      [push_log db service.name pod "warn"
        ("Database connection count increasing: " ++ toString connections),
       push_log db service.name pod "error" "Connection pool leak detected"] ++
      (if 100 < connections then
        [push_log db service.name pod "error" "New connection requests being rejected"]
      else []) }

/-- `IncidentGenerator.generate_queue_backlog_incident`, lines 346-360.
`cpu_draw` is `randint(5, 20)` and `mem_draw` is `randint(5, 15)`. -/
def generate_queue_backlog_incident (db : DbService) (service : Service)
    (pod : String) (elapsed_time : Nat) (cpu_draw mem_draw : Int) : GenOut :=
  let queue_size : Int := min 10000 (100 + (elapsed_time : Int) * 5)
  let cpu : Int := service.base_cpu + cpu_draw
  let memory : Int := service.base_memory + mem_draw
  { metrics := [
      ("cpu_usage", (cpu : Rat)),
      ("memory_usage", (memory : Rat)),
      ("queue_depth", (queue_size : Rat))],
    logs :=
      [push_log db service.name pod "warn"
        ("Queue depth growing: " ++ toString queue_size ++ " messages")] ++
      (if 1000 < queue_size then
        [push_log db service.name pod "error" "Message processing lag detected"]
      else []) ++
      (if 5000 < queue_size then
        [push_log db service.name pod "error" "Queue backlog critical - potential data loss"]
      else []) }

/-- `IncidentGenerator.generate_gc_pressure_incident`, lines 362-375.
`cpu_draw` is `randint(15, 35)`, `mem_draw` is `randint(10, 25)`,
`gc_draw` is `randint(200, 1000)` and `resp_draw` is `uniform(1.0, 5.0)`. -/
def generate_gc_pressure_incident (db : DbService) (service : Service)
    (pod : String) (cpu_draw mem_draw gc_draw : Int) (resp_draw : Rat) : GenOut :=
  let cpu : Int := service.base_cpu + cpu_draw
  let memory : Int := service.base_memory + mem_draw
  { metrics := [
      ("cpu_usage", (cpu : Rat)),
      ("memory_usage", (memory : Rat)),
      ("gc_time_ms", (gc_draw : Rat)),
      ("response_time_seconds", resp_draw)],
    logs := [
      push_log db service.name pod "warn"
        ("Frequent garbage collection events (duration: " ++ toString gc_draw ++ "ms)"),
      push_log db service.name pod "warn" "Application pause time increasing",
      push_log db service.name pod "error" "GC pressure affecting response times"] }

/-- The fixed error-message pool of `generate_error_burst_incident`. -/
def error_messages : List String := [
  "HTTP 400 Bad Request: Invalid user ID format",
  "HTTP 404 Not Found: User profile not found",
  "HTTP 429 Too Many Requests: Rate limit exceeded",
  "HTTP 503 Service Unavailable: Downstream service error"]

/-- `IncidentGenerator.generate_error_burst_incident`, lines 377-395.
`cpu_draw` is `randint(0, 15)`, `mem_draw` is `randint(0, 15)`,
`err_draw` is `randint(10, 50)`, `count_draw` is `randint(1, 3)` and
`pick_draw k` indexes the `random.choice` of the k-th emitted line. -/
def generate_error_burst_incident (db : DbService) (service : Service)
    (pod : String) (cpu_draw mem_draw err_draw : Int) (count_draw : Nat)
    (pick_draw : Nat → Nat) : GenOut :=
  let cpu : Int := service.base_cpu + cpu_draw
  let memory : Int := service.base_memory + mem_draw
  { metrics := [
      ("cpu_usage", (cpu : Rat)),
      ("memory_usage", (memory : Rat)),
      ("error_rate", (err_draw : Rat))],
    logs := (List.range count_draw).map (fun k =>
      push_log db service.name pod "error" (error_messages.getD (pick_draw k) "")) }

/-- The fixed informational-message pool of `generate_normal_operation`,
parameterized by the `randint(10, 100)` request-count draw. -/
def normal_messages (req_draw : Int) : List String := [
  "Health check completed successfully",
  "Processed " ++ toString req_draw ++ " requests in last minute",
  "Service startup completed",
  "Configuration reloaded"]

/-- `IncidentGenerator.generate_normal_operation`, lines 397-416.
`cpu_draw` and `mem_draw` are `randint(-5, 10)`, `conn_draw` is
`randint(-5, 5)`, `log_draw` is the `random.random()` compared against 0.05,
`req_draw` is `randint(10, 100)` and `msg_pick` indexes `random.choice`. -/
def generate_normal_operation (db : DbService) (service : Service)
    (pod : String) (cpu_draw mem_draw conn_draw : Int) (log_draw : Rat)
    (req_draw : Int) (msg_pick : Nat) : GenOut :=
  let cpu : Int := service.base_cpu + cpu_draw
  let memory : Int := service.base_memory + mem_draw
  { metrics := [
      ("cpu_usage", ((max 1 cpu : Int) : Rat)),
      ("memory_usage", ((max 1 memory : Int) : Rat))] ++
      (if service.service_type == "database" then
        [("db_connections", ((service.base_connections + conn_draw : Int) : Rat))]
      else []),
    logs :=
      if log_draw < 0.05 then
        [push_log db service.name pod "info" ((normal_messages req_draw).getD msg_pick "")]
      else [] }

/-- The bundle of random draws available to one generator dispatch (the last
four fields are the draws of `generate_normal_operation`). -/
structure Draws where
  cpu_draw : Int := 0
  mem_draw : Int := 0
  gc_draw : Int := 0
  resp_draw : Rat := 0
  latency_draw : Int := 0
  err_draw : Int := 0
  slow_draw : Int := 0
  count_draw : Nat := 1
  pick_draw : Nat → Nat := fun _ => 0
  conn_draw : Int := 0
  log_draw : Rat := 1
  req_draw : Int := 10
  msg_pick : Nat := 0

/-- The `random.randint` / `random.uniform` ranges each generator draws from,
as a decidable predicate on the draw bundle. -/
def drawsOk : IncidentType → Draws → Bool
  | .MEMORY_LEAK, d =>
    decide (5 ≤ d.cpu_draw ∧ d.cpu_draw ≤ 15 ∧ 100 ≤ d.gc_draw ∧ d.gc_draw ≤ 500)
  | .CPU_SPIKE, d =>
    decide (91 ≤ d.cpu_draw ∧ d.cpu_draw ≤ 99 ∧ 5 ≤ d.mem_draw ∧ d.mem_draw ≤ 15 ∧
      2 ≤ d.resp_draw ∧ d.resp_draw ≤ 8)
  | .DATABASE_SLOW, d =>
    decide (10 ≤ d.cpu_draw ∧ d.cpu_draw ≤ 30 ∧ 5 ≤ d.mem_draw ∧ d.mem_draw ≤ 20 ∧
      5 ≤ d.resp_draw ∧ d.resp_draw ≤ 15 ∧ 5 ≤ d.slow_draw ∧ d.slow_draw ≤ 15)
  | .NETWORK_LATENCY, d =>
    decide (0 ≤ d.cpu_draw ∧ d.cpu_draw ≤ 10 ∧ 0 ≤ d.mem_draw ∧ d.mem_draw ≤ 10 ∧
      500 ≤ d.latency_draw ∧ d.latency_draw ≤ 2000 ∧ 5 ≤ d.err_draw ∧ d.err_draw ≤ 25)
  | .DISK_FULL, d =>
    decide (5 ≤ d.cpu_draw ∧ d.cpu_draw ≤ 15)
  | .CONNECTION_LEAK, d =>
    decide (0 ≤ d.cpu_draw ∧ d.cpu_draw ≤ 10 ∧ 10 ≤ d.mem_draw ∧ d.mem_draw ≤ 25)
  | .QUEUE_BACKLOG, d =>
    decide (5 ≤ d.cpu_draw ∧ d.cpu_draw ≤ 20 ∧ 5 ≤ d.mem_draw ∧ d.mem_draw ≤ 15)
  | .GC_PRESSURE, d =>
    decide (15 ≤ d.cpu_draw ∧ d.cpu_draw ≤ 35 ∧ 10 ≤ d.mem_draw ∧ d.mem_draw ≤ 25 ∧
      200 ≤ d.gc_draw ∧ d.gc_draw ≤ 1000 ∧ 1 ≤ d.resp_draw ∧ d.resp_draw ≤ 5)
  | .ERROR_BURST, d =>
    decide (0 ≤ d.cpu_draw ∧ d.cpu_draw ≤ 15 ∧ 0 ≤ d.mem_draw ∧ d.mem_draw ≤ 15 ∧
      10 ≤ d.err_draw ∧ d.err_draw ≤ 50 ∧ 1 ≤ d.count_draw ∧ d.count_draw ≤ 3)
  | .NORMAL, _ => true

/-- The draw ranges of `generate_normal_operation`. -/
def normalDrawsOk (cpu_draw mem_draw conn_draw : Int) (req_draw : Int) : Bool :=
  decide ((-5) ≤ cpu_draw ∧ cpu_draw ≤ 10 ∧ (-5) ≤ mem_draw ∧ mem_draw ≤ 10 ∧
    (-5) ≤ conn_draw ∧ conn_draw ≤ 5 ∧ 10 ≤ req_draw ∧ req_draw ≤ 100)

/-- `IncidentGenerator.generate_incident_data`, lines 418-445: dispatch on the
service's current fault kind; an unknown kind (the `NORMAL` member, or no
fault at all) only logs a warning to stdout and produces no telemetry. -/
def generate_incident_data (db : DbService) (service : Service) (pod : String)
    (elapsed_time : Nat) (d : Draws) : GenOut :=
  match service.current_incident with
  | some .MEMORY_LEAK =>
    generate_memory_leak_incident db service pod elapsed_time d.cpu_draw d.gc_draw
  | some .CPU_SPIKE =>
    generate_cpu_spike_incident db service pod d.cpu_draw d.mem_draw d.resp_draw
  | some .DATABASE_SLOW =>
    generate_database_slow_incident db service pod elapsed_time d.cpu_draw d.mem_draw
      d.resp_draw d.slow_draw
  | some .NETWORK_LATENCY =>
    generate_network_latency_incident db service pod d.cpu_draw d.mem_draw
      d.latency_draw d.err_draw
  | some .DISK_FULL =>
    generate_disk_full_incident db service pod elapsed_time d.cpu_draw
  | some .CONNECTION_LEAK =>
    generate_connection_leak_incident db service pod elapsed_time d.cpu_draw d.mem_draw
  | some .QUEUE_BACKLOG =>
    generate_queue_backlog_incident db service pod elapsed_time d.cpu_draw d.mem_draw
  | some .GC_PRESSURE =>
    generate_gc_pressure_incident db service pod d.cpu_draw d.mem_draw d.gc_draw d.resp_draw
  | some .ERROR_BURST =>
    generate_error_burst_incident db service pod d.cpu_draw d.mem_draw d.err_draw
      d.count_draw d.pick_draw
  | some .NORMAL => { metrics := [], logs := [] }
  | none => { metrics := [], logs := [] }

/-- The state transitions of `IncidentGenerator.process_service`, lines
447-524, for the service at index `i` of the fleet.  `duration_draw` is
`random.randint(*pattern["duration_range"])`.  The `create_incident` call
sits inside a `try/except` (lines 476-484): on failure the assignment to
`current_incident_id` is skipped, so the field keeps whatever value it had
before — `None` after a normal start, but possibly a stale id left behind by
the outer error handler (lines 520-524), which clears only the fault kind and
start time.  The start transition itself was already applied before the call.
The `update_incident_status` call in the end branch is likewise wrapped and
its outcome discarded. -/
def process_service (st : GenState) (i : Nat) (now : Rat) (draws : Nat → Rat)
    (duration_draw : Int) (db : DbService) : GenState :=
  match st.services.get? i with
  | none => st
  | some service =>
    if service.current_incident.isNone then
      match should_start_incident st service (now - st.generation_start_time) draws with
      | (some t, st1) =>
        { st1 with services := updateAt i (fun s =>
            { s with current_incident := some t,
                     incident_start_time := some now,
                     incident_duration := duration_draw,
                     current_incident_id :=
                       match db.create_incident (incidentTypeValue t) service.name with
                       | .ok iid => some iid
                       | .error _ => s.current_incident_id }) st1.services }
      | (none, st1) => st1
    else if should_end_incident service now then
      let _upd : Except String Unit :=
        match service.current_incident_id with
        | some iid => db.update_incident_status iid "resolved"
        | none => .ok ()
      { st with services := updateAt i (fun s =>
          { s with current_incident := none,
                   incident_start_time := none,
                   incident_duration := 0,
                   current_incident_id := none }) st.services }
    else st

/-- One iteration of the `run_incident_generator` main loop: process every
service of the fleet in declaration order.  `draws i` is the uniform-draw
stream used for service `i` and `durs i` its duration draw. -/
def run_tick (st : GenState) (now : Rat) (draws : Nat → Nat → Rat)
    (durs : Nat → Int) (db : DbService) : GenState :=
  (List.range st.services.length).foldl
    (fun s i => process_service s i now (draws i) (durs i) db) st

/-- The outer `except` handler of `process_service`, lines 520-524: when
processing service `i` raised, its fault kind and start time are cleared. -/
def on_process_error (st : GenState) (i : Nat) : GenState :=
  { st with services := updateAt i (fun s =>
      { s with current_incident := none, incident_start_time := none }) st.services }

/-- The per-pod telemetry portion of `process_service` together with its
state transitions, lines 447-524: after the state-machine step, each pod of
the service at index `i` generates telemetry inside its own `try/except`
(lines 508-518).  A pod whose generation raises (`pod_fails pod`) contributes
no telemetry; the inner handler (lines 517-518) only prints, so the fleet
state is never touched and the loop continues with the remaining pods.  The
elapsed computation (line 512) sits inside the same `try`, so a fault with a
missing start time makes that pod's generation raise and be skipped too.
`d pod` is the draw bundle of that pod. -/
def process_service_with_pods (st : GenState) (i : Nat) (now : Rat)
    (draws : Nat → Rat) (duration_draw : Int) (db : DbService)
    (d : String → Draws) (pod_fails : String → Bool) : GenState × List GenOut :=
  let st2 := process_service st i now draws duration_draw db
  match st2.services.get? i with
  | none => (st2, [])
  | some svc =>
    (st2, svc.pods.filterMap (fun pod =>
      if pod_fails pod then none
      else if svc.current_incident.isSome then
        match svc.incident_start_time with
        | some t0 =>
          some (generate_incident_data db svc pod ((now - t0).floor.toNat) (d pod))
        | none => none
      else
        some (generate_normal_operation db svc pod (d pod).cpu_draw (d pod).mem_draw
          (d pod).conn_draw (d pod).log_draw (d pod).req_draw (d pod).msg_pick)))

/-- One loop iteration in which the services named by `outer_fails` raise in
the state-machine portion of their processing — the only exceptions that
reach the outer handler of lines 520-524 (at worst after the state mutations
were applied) — and are reset by `on_process_error`; the loop itself never
aborts.  Per-pod generation exceptions never reach this boundary: they are
absorbed by the inner per-pod handlers (lines 444-445 and 517-518), which do
not touch the state (see `process_service_with_pods`). -/
def run_tick_catching (st : GenState) (now : Rat) (draws : Nat → Nat → Rat)
    (durs : Nat → Int) (db : DbService) (outer_fails : Nat → Bool) : GenState :=
  (List.range st.services.length).foldl
    (fun s i =>
      if outer_fails i then on_process_error (process_service s i now (draws i) (durs i) db) i
      else process_service s i now (draws i) (durs i) db) st

/-- Generator states reachable in a run: the freshly constructed generator
over the configured fleet, closed under per-service processing steps and
under the defensive error handler. -/
inductive Reachable : GenState → Prop where
  | init (t0 : Rat) :
      Reachable { services := SERVICES, total_incidents_generated := 0,
                  generation_start_time := t0 }
  | step {st : GenState} (i : Nat) (now : Rat) (draws : Nat → Rat)
      (dur : Int) (db : DbService) :
      Reachable st → Reachable (process_service st i now draws dur db)
  | errStep {st : GenState} (i : Nat) :
      Reachable st → Reachable (on_process_error st i)

/-- Forget the opaque persistence handle of a service: everything the
in-memory state machine reads. -/
def erase_id (s : Service) : Service := { s with current_incident_id := none }

/-- Forget all persistence handles of a generator state. -/
def erase_ids (st : GenState) : GenState :=
  { st with services := st.services.map erase_id }

/-- Spec-side description of pattern selection (section 4.2 of the design):
scan the patterns applicable to the service in declaration order, give the
k-th applicable pattern the k-th uniform draw, and select the first one whose
draw is below its probability threshold. -/
def firstEligibleHit (draws : Nat → Rat) :
    Nat → List (IncidentType × PatternConfig) → Option IncidentType
  | _, [] => none
  | i, (t, cfg) :: rest =>
    if draws i < cfg.probability then some t
    else firstEligibleHit draws (i + 1) rest

/-- The documented bounds of section 4.3 / 8 of the design for one emitted
metric observation: no value is negative, memory percentages lie in [1, 98]
and queue depths in [100, 10000]. -/
def metricWithinBounds (nm : String) (v : Rat) : Prop :=
  0 ≤ v ∧ (nm = "memory_usage" → 1 ≤ v ∧ v ≤ 98) ∧
    (nm = "queue_depth" → 100 ≤ v ∧ v ≤ 10000)

/-! ### Helper lemmas -/

theorem updateAt_length (i : Nat) (f : Service → Service) (l : List Service) :
    (updateAt i f l).length = l.length := by
  induction l generalizing i with
  | nil => simp [updateAt]
  | cons s rest ih =>
    cases i with
    | zero => simp [updateAt]
    | succ j => simp [updateAt, ih]

theorem get?_updateAt_self {l : List Service} {i : Nat} {s : Service}
    (f : Service → Service) (h : l.get? i = some s) :
    (updateAt i f l).get? i = some (f s) := by
  induction l generalizing i with
  | nil => simp at h
  | cons a rest ih =>
    cases i with
    | zero => simp_all [updateAt]
    | succ j =>
      simp only [List.get?] at h
      simpa [updateAt] using ih h

theorem get?_updateAt_ne (i : Nat) (f : Service → Service) (l : List Service)
    (j : Nat) (h : j ≠ i) : (updateAt i f l).get? j = l.get? j := by
  induction l generalizing i j with
  | nil => simp [updateAt]
  | cons a rest ih =>
    cases i with
    | zero =>
      cases j with
      | zero => exact absurd rfl h
      | succ k => simp [updateAt]
    | succ i2 =>
      cases j with
      | zero => simp [updateAt]
      | succ k =>
        simp only [updateAt, List.get?]
        exact ih i2 k (fun hk => h (by omega))

theorem activeIncidentCount_updateAt_le (i : Nat) (f : Service → Service)
    (l : List Service) :
    activeIncidentCount (updateAt i f l) ≤ activeIncidentCount l + 1 := by
  induction l generalizing i with
  | nil => simp [updateAt, activeIncidentCount]
  | cons s rest ih =>
    cases i with
    | zero =>
      simp only [updateAt, activeIncidentCount, List.countP_cons]
      have h1 : (if (f s).current_incident.isSome = true then 1 else 0) ≤ 1 := by
        split <;> omega
      have h2 : (0:Nat) ≤ if s.current_incident.isSome = true then 1 else 0 := by
        split <;> omega
      omega
    | succ j =>
      simp only [updateAt, activeIncidentCount, List.countP_cons]
      have := ih j
      simp only [activeIncidentCount] at this
      omega

theorem activeIncidentCount_updateAt_clear (i : Nat) (f : Service → Service)
    (l : List Service) (hf : ∀ s, (f s).current_incident = none) :
    activeIncidentCount (updateAt i f l) ≤ activeIncidentCount l := by
  induction l generalizing i with
  | nil => simp [updateAt, activeIncidentCount]
  | cons s rest ih =>
    cases i with
    | zero =>
      simp only [updateAt, activeIncidentCount, List.countP_cons, hf s,
        Option.isSome_none, Bool.false_eq_true, if_false]
      split <;> omega
    | succ j =>
      simp only [updateAt, activeIncidentCount, List.countP_cons]
      have := ih j
      simp only [activeIncidentCount] at this
      omega

theorem should_start_snd_services (st : GenState) (svc : Service)
    (r : Rat) (d : Nat → Rat) :
    (should_start_incident st svc r d).2.services = st.services := by
  unfold should_start_incident
  repeat' split
  all_goals rfl

theorem should_start_snd_start_time (st : GenState) (svc : Service)
    (r : Rat) (d : Nat → Rat) :
    (should_start_incident st svc r d).2.generation_start_time =
      st.generation_start_time := by
  unfold should_start_incident
  repeat' split
  all_goals rfl

theorem should_start_isSome_active_lt {st : GenState} {svc : Service}
    {r : Rat} {d : Nat → Rat} {t : IncidentType}
    (h : (should_start_incident st svc r d).1 = some t) :
    activeIncidentCount st.services < max_concurrent_incidents := by
  unfold should_start_incident at h
  split at h
  · simp at h
  · split at h
    · simp at h
    · next hguard => omega

theorem should_start_total (st : GenState) (svc : Service)
    (r : Rat) (d : Nat → Rat) :
    (should_start_incident st svc r d).2.total_incidents_generated =
      if (should_start_incident st svc r d).1.isSome
      then st.total_incidents_generated + 1
      else st.total_incidents_generated := by
  unfold should_start_incident
  repeat' split
  all_goals simp_all

theorem process_service_services_length (st : GenState) (i : Nat) (now : Rat)
    (draws : Nat → Rat) (dur : Int) (db : DbService) :
    (process_service st i now draws dur db).services.length = st.services.length := by
  unfold process_service
  cases hget : st.services.get? i with
  | none => rfl
  | some svc =>
    simp only
    split
    · rcases hss : should_start_incident st svc (now - st.generation_start_time) draws
        with ⟨res, st1⟩
      have h1 : st1.services = st.services := by
        have h := should_start_snd_services st svc (now - st.generation_start_time) draws
        rw [hss] at h
        exact h
      cases res with
      | some t => simp [updateAt_length, h1]
      | none => simp [h1]
    · split
      · simp [updateAt_length]
      · rfl

theorem process_service_active_le {st : GenState} (i : Nat) (now : Rat)
    (draws : Nat → Rat) (dur : Int) (db : DbService)
    (h : activeIncidentCount st.services ≤ max_concurrent_incidents) :
    activeIncidentCount (process_service st i now draws dur db).services ≤
      max_concurrent_incidents := by
  unfold process_service
  cases hget : st.services.get? i with
  | none => exact h
  | some svc =>
    simp only
    split
    · rcases hss : should_start_incident st svc (now - st.generation_start_time) draws
        with ⟨res, st1⟩
      have h1 : st1.services = st.services := by
        have h2 := should_start_snd_services st svc (now - st.generation_start_time) draws
        rw [hss] at h2
        exact h2
      cases res with
      | some t =>
        have hlt : activeIncidentCount st.services < max_concurrent_incidents := by
          apply should_start_isSome_active_lt (t := t)
          rw [hss]
        calc activeIncidentCount (updateAt i _ st1.services)
            ≤ activeIncidentCount st1.services + 1 := activeIncidentCount_updateAt_le ..
          _ ≤ max_concurrent_incidents := by rw [h1]; omega
      | none => simpa [h1] using h
    · split
      · calc activeIncidentCount (updateAt i _ st.services)
            ≤ activeIncidentCount st.services := by
              apply activeIncidentCount_updateAt_clear
              intro s
              rfl
          _ ≤ max_concurrent_incidents := h
      · exact h

theorem on_process_error_active_le {st : GenState} (i : Nat)
    (h : activeIncidentCount st.services ≤ max_concurrent_incidents) :
    activeIncidentCount (on_process_error st i).services ≤ max_concurrent_incidents := by
  unfold on_process_error
  calc activeIncidentCount (updateAt i _ st.services)
      ≤ activeIncidentCount st.services := by
        apply activeIncidentCount_updateAt_clear
        intro s
        rfl
    _ ≤ max_concurrent_incidents := h

theorem process_service_total_mono (st : GenState) (i : Nat) (now : Rat)
    (draws : Nat → Rat) (dur : Int) (db : DbService) :
    st.total_incidents_generated ≤
      (process_service st i now draws dur db).total_incidents_generated := by
  unfold process_service
  cases hget : st.services.get? i with
  | none => exact le_refl _
  | some svc =>
    simp only
    split
    · rcases hss : should_start_incident st svc (now - st.generation_start_time) draws
        with ⟨res, st1⟩
      have h1 := should_start_total st svc (now - st.generation_start_time) draws
      rw [hss] at h1
      cases res with
      | some t =>
        simp only at h1 ⊢
        simp only [Option.isSome_some, if_true] at h1
        omega
      | none =>
        simp only [Option.isSome_none, Bool.false_eq_true, if_false] at h1
        simp [h1]
    · split
      · exact le_refl _
      · exact le_refl _

theorem process_service_get?_ne (st : GenState) (i : Nat) (now : Rat)
    (draws : Nat → Rat) (dur : Int) (db : DbService) (j : Nat) (hj : j ≠ i) :
    (process_service st i now draws dur db).services.get? j = st.services.get? j := by
  unfold process_service
  cases hget : st.services.get? i with
  | none => rfl
  | some svc =>
    simp only
    split
    · rcases hss : should_start_incident st svc (now - st.generation_start_time) draws
        with ⟨res, st1⟩
      have h1 : st1.services = st.services := by
        have h2 := should_start_snd_services st svc (now - st.generation_start_time) draws
        rw [hss] at h2
        exact h2
      cases res with
      | some t =>
        show (updateAt i _ st1.services).get? j = st.services.get? j
        rw [h1]
        exact get?_updateAt_ne i _ _ j hj
      | none => simp [h1]
    · split
      · exact get?_updateAt_ne i _ _ j hj
      · rfl

theorem findPattern_eq_firstEligibleHit (name : String) (draws : Nat → Rat)
    (i : Nat) (ps : List (IncidentType × PatternConfig)) :
    findPattern name draws i ps =
      firstEligibleHit draws i (ps.filter (fun p => p.2.services.contains name)) := by
  induction ps generalizing i with
  | nil => rfl
  | cons p rest ih =>
    rcases p with ⟨t, cfg⟩
    simp only [findPattern, List.filter_cons]
    by_cases hc : cfg.services.contains name = true
    · simp only [hc, if_true, firstEligibleHit]
      split
      · rfl
      · exact ih (i + 1)
    · simp only [hc, if_false]
      exact ih i

theorem erase_ids_eq_iff {st1 st2 : GenState} :
    erase_ids st1 = erase_ids st2 ↔
      st1.services.map erase_id = st2.services.map erase_id ∧
      st1.total_incidents_generated = st2.total_incidents_generated ∧
      st1.generation_start_time = st2.generation_start_time := by
  cases st1
  cases st2
  simp [erase_ids, GenState.mk.injEq]

theorem erase_id_fields {s1 s2 : Service} (h : erase_id s1 = erase_id s2) :
    s1.name = s2.name ∧ s1.service_type = s2.service_type ∧
    s1.base_cpu = s2.base_cpu ∧ s1.base_memory = s2.base_memory ∧
    s1.base_connections = s2.base_connections ∧ s1.pods = s2.pods ∧
    s1.current_incident = s2.current_incident ∧
    s1.incident_start_time = s2.incident_start_time ∧
    s1.incident_duration = s2.incident_duration := by
  cases s1
  cases s2
  simp only [erase_id, Service.mk.injEq] at h
  simp_all

theorem activeIncidentCount_map_erase (l : List Service) :
    activeIncidentCount (l.map erase_id) = activeIncidentCount l := by
  simp only [activeIncidentCount, List.countP_map]
  rfl

theorem should_end_erase {s1 s2 : Service} (h : erase_id s1 = erase_id s2)
    (now : Rat) : should_end_incident s1 now = should_end_incident s2 now := by
  obtain ⟨-, -, -, -, -, -, h7, h8, h9⟩ := erase_id_fields h
  unfold should_end_incident
  rw [h7, h8, h9]

theorem map_erase_updateAt (i : Nat) (g1 g2 : Service → Service)
    (l : List Service) (hcomm : ∀ s, erase_id (g1 s) = g2 (erase_id s)) :
    (updateAt i g1 l).map erase_id = updateAt i g2 (l.map erase_id) := by
  induction l generalizing i with
  | nil => simp [updateAt]
  | cons a rest ih =>
    cases i with
    | zero => simp [updateAt, hcomm a]
    | succ j => simp [updateAt, ih j]

theorem should_start_erase {st1 st2 : GenState} {s1 s2 : Service}
    (hst : erase_ids st1 = erase_ids st2) (hs : erase_id s1 = erase_id s2)
    (r : Rat) (d : Nat → Rat) :
    (should_start_incident st1 s1 r d).1 = (should_start_incident st2 s2 r d).1 ∧
      erase_ids (should_start_incident st1 s1 r d).2 =
        erase_ids (should_start_incident st2 s2 r d).2 := by
  obtain ⟨hmap, htot, hgen⟩ := erase_ids_eq_iff.mp hst
  obtain ⟨hname, -, -, -, -, -, hinc, -, -⟩ := erase_id_fields hs
  have hcount : activeIncidentCount st1.services = activeIncidentCount st2.services := by
    rw [← activeIncidentCount_map_erase st1.services, hmap,
      activeIncidentCount_map_erase]
  unfold should_start_incident
  rw [hname, hinc, hcount, htot]
  repeat' split
  all_goals simp_all [erase_ids_eq_iff]

theorem process_service_erase {st1 st2 : GenState} (i : Nat) (now : Rat)
    (draws : Nat → Rat) (dur : Int) (db1 db2 : DbService)
    (hst : erase_ids st1 = erase_ids st2) :
    erase_ids (process_service st1 i now draws dur db1) =
      erase_ids (process_service st2 i now draws dur db2) := by
  obtain ⟨hmap, htot, hgen⟩ := erase_ids_eq_iff.mp hst
  have hget : Option.map erase_id (st1.services.get? i) =
      Option.map erase_id (st2.services.get? i) := by
    have h := congrArg (fun l => l.get? i) hmap
    simpa [List.getElem?_map] using h
  unfold process_service
  cases h1 : st1.services.get? i with
  | none =>
    cases h2 : st2.services.get? i with
    | none => exact hst
    | some s2 => rw [h1, h2] at hget; simp at hget
  | some s1 =>
    cases h2 : st2.services.get? i with
    | none => rw [h1, h2] at hget; simp at hget
    | some s2 =>
      rw [h1, h2] at hget
      simp only [Option.map_some'] at hget
      have hs : erase_id s1 = erase_id s2 := Option.some.inj hget
      obtain ⟨hname, -, -, -, -, -, hinc, hstart, hdur⟩ := erase_id_fields hs
      simp only
      by_cases hn : s2.current_incident.isNone = true
      · rw [if_pos (by rw [hinc]; exact hn), if_pos hn, hgen]
        obtain ⟨hfst, hsnd⟩ :=
          should_start_erase hst hs (now - st2.generation_start_time) draws
        rcases e1 : should_start_incident st1 s1 (now - st2.generation_start_time) draws
          with ⟨res1, sta⟩
        rcases e2 : should_start_incident st2 s2 (now - st2.generation_start_time) draws
          with ⟨res2, stb⟩
        rw [e1, e2] at hfst hsnd
        simp only at hfst hsnd
        obtain ⟨hmap2, htot2, hgen2⟩ := erase_ids_eq_iff.mp hsnd
        subst hfst
        cases res1 with
        | some t =>
          simp only
          rw [erase_ids_eq_iff]
          refine ⟨?_, htot2, hgen2⟩
          show (updateAt i _ sta.services).map erase_id =
            (updateAt i _ stb.services).map erase_id
          rw [map_erase_updateAt i _ (fun s =>
              { s with current_incident := some t,
                       incident_start_time := some now,
                       incident_duration := dur,
                       current_incident_id := none }) _ (fun s => rfl),
            map_erase_updateAt i _ (fun s =>
              { s with current_incident := some t,
                       incident_start_time := some now,
                       incident_duration := dur,
                       current_incident_id := none }) _ (fun s => rfl),
            hmap2]
        | none =>
          simp only
          exact hsnd
      · rw [if_neg (by rw [hinc]; exact hn), if_neg hn]
        by_cases hend : should_end_incident s2 now = true
        · rw [if_pos (by rw [should_end_erase hs now]; exact hend), if_pos hend]
          show erase_ids { st1 with services := updateAt i _ st1.services } =
            erase_ids { st2 with services := updateAt i _ st2.services }
          rw [erase_ids_eq_iff]
          refine ⟨?_, htot, hgen⟩
          show (updateAt i _ st1.services).map erase_id =
            (updateAt i _ st2.services).map erase_id
          rw [map_erase_updateAt i _ (fun s =>
              { s with current_incident := none,
                       incident_start_time := none,
                       incident_duration := 0,
                       current_incident_id := none }) _ (fun s => rfl),
            map_erase_updateAt i _ (fun s =>
              { s with current_incident := none,
                       incident_start_time := none,
                       incident_duration := 0,
                       current_incident_id := none }) _ (fun s => rfl),
            hmap]
        · rw [if_neg (by rw [should_end_erase hs now]; exact hend), if_neg hend]
          exact hst

theorem run_tick_erase_aux (idxs : List Nat) (now : Rat)
    (draws : Nat → Nat → Rat) (durs : Nat → Int) (db1 db2 : DbService)
    {st1 st2 : GenState} (hst : erase_ids st1 = erase_ids st2) :
    erase_ids (idxs.foldl
        (fun s i => process_service s i now (draws i) (durs i) db1) st1) =
      erase_ids (idxs.foldl
        (fun s i => process_service s i now (draws i) (durs i) db2) st2) := by
  induction idxs generalizing st1 st2 with
  | nil => exact hst
  | cons j rest ih =>
    exact ih (process_service_erase j now (draws j) (durs j) db1 db2 hst)

theorem run_tick_erase (st : GenState) (now : Rat) (draws : Nat → Nat → Rat)
    (durs : Nat → Int) (db1 db2 : DbService) :
    erase_ids (run_tick st now draws durs db1) =
      erase_ids (run_tick st now draws durs db2) := by
  unfold run_tick
  exact run_tick_erase_aux _ now draws durs db1 db2 rfl

/-! ### Claim theorems -/

/-- C1: at every point of a run at most `max_concurrent_incidents` (3)
services have an active fault simultaneously: every reachable generator state
has at most 3 faulted services, and `should_start_incident` returns `none`
whenever at least 3 services already have an active fault, whatever the
probability draws would have produced. -/
theorem C1_concurrency_cap :
    (∀ st : GenState, Reachable st → activeIncidentCount st.services ≤ 3) ∧
    (∀ (st : GenState) (svc : Service) (r : Rat) (d : Nat → Rat),
      3 ≤ activeIncidentCount st.services →
      (should_start_incident st svc r d).1 = none) := by
  constructor
  · intro st h
    induction h with
    | init t0 =>
      show activeIncidentCount SERVICES ≤ 3
      have h0 : activeIncidentCount SERVICES = 0 := rfl
      omega
    | step i now draws dur db hr ih => exact process_service_active_le i now draws dur db ih
    | errStep i hr ih => exact on_process_error_active_le i ih
  · intro st svc r d h
    unfold should_start_incident
    by_cases h1 : svc.current_incident.isSome = true
    · rw [if_pos h1]
    · rw [if_neg h1, if_pos (show max_concurrent_incidents ≤ activeIncidentCount st.services from h)]

theorem C1_concurrency_cap_witness :
    activeIncidentCount (GenState.mk SERVICES 0 0).services ≤ 3 ∧
    (should_start_incident
      { services := [
          { name := "user-api", service_type := "web", current_incident := some .CPU_SPIKE },
          { name := "payment-service", service_type := "web", current_incident := some .MEMORY_LEAK },
          { name := "search-engine", service_type := "search", current_incident := some .GC_PRESSURE },
          { name := "order-processor", service_type := "worker" }],
        total_incidents_generated := 3, generation_start_time := 0 }
      { name := "order-processor", service_type := "worker" } 0 (fun _ => 0)).1 = none :=
  ⟨C1_concurrency_cap.1 _ (Reachable.init 0),
   C1_concurrency_cap.2 _ _ 0 (fun _ => 0) (by decide)⟩

/-- C2: for a service with an active fault, `should_end_incident` is true
exactly when the start time is missing, or more than 3600 seconds elapsed, or
the elapsed time reached the planned duration; a 60-second fault has ended by
elapsed 3601 and a 5000-second fault is force-ended at elapsed 3601; without
an active fault the check is false. -/
theorem C2_end_rule :
    (∀ (svc : Service) (now : Rat), svc.current_incident = none →
      should_end_incident svc now = false) ∧
    (∀ (svc : Service) (now : Rat), svc.current_incident.isSome = true →
      (should_end_incident svc now = true ↔
        svc.incident_start_time = none ∨
        ∃ t0, svc.incident_start_time = some t0 ∧
          (3600 < now - t0 ∨ (svc.incident_duration : Rat) ≤ now - t0))) ∧
    (∀ (svc : Service) (now t0 : Rat), svc.current_incident.isSome = true →
      svc.incident_start_time = some t0 → svc.incident_duration = 60 →
      now - t0 = 3601 → should_end_incident svc now = true) ∧
    (∀ (svc : Service) (now t0 : Rat), svc.current_incident.isSome = true →
      svc.incident_start_time = some t0 → svc.incident_duration = 5000 →
      now - t0 = 3601 → should_end_incident svc now = true) := by
  have part2 : ∀ (svc : Service) (now : Rat), svc.current_incident.isSome = true →
      (should_end_incident svc now = true ↔
        svc.incident_start_time = none ∨
        ∃ t0, svc.incident_start_time = some t0 ∧
          (3600 < now - t0 ∨ (svc.incident_duration : Rat) ≤ now - t0)) := by
    intro svc now hs
    have hnn : svc.current_incident.isNone = false := by
      cases h : svc.current_incident with
      | none => rw [h] at hs; simp at hs
      | some t => rfl
    unfold should_end_incident
    rw [hnn]
    simp only [Bool.false_eq_true, if_false]
    cases hst : svc.incident_start_time with
    | none => simp
    | some t0 =>
      simp only [Option.some.injEq, reduceCtorEq, false_or]
      by_cases h36 : 3600 < now - t0
      · rw [if_pos h36]
        simp only [true_iff]
        exact ⟨t0, rfl, Or.inl h36⟩
      · rw [if_neg h36]
        constructor
        · intro h
          exact ⟨t0, rfl, Or.inr (by simpa using h)⟩
        · rintro ⟨t1, ht1, h | h⟩
          · subst ht1
            exact absurd h h36
          · subst ht1
            simpa using h
  refine ⟨?_, part2, ?_, ?_⟩
  · intro svc now h
    unfold should_end_incident
    rw [if_pos (by rw [h]; rfl)]
  · intro svc now t0 hs hst hdur hdiff
    refine (part2 svc now hs).mpr (Or.inr ⟨t0, hst, Or.inl ?_⟩)
    rw [hdiff]
    norm_num
  · intro svc now t0 hs hst hdur hdiff
    refine (part2 svc now hs).mpr (Or.inr ⟨t0, hst, Or.inl ?_⟩)
    rw [hdiff]
    norm_num

theorem C2_end_rule_witness :
    should_end_incident { name := "user-api", service_type := "web" } 100 = false ∧
    (should_end_incident
        { name := "user-api", service_type := "web",
          current_incident := some .MEMORY_LEAK, incident_start_time := some 0,
          incident_duration := 60 } 10 = true ↔
      (some (0:Rat) : Option Rat) = none ∨
      ∃ t0, (some (0:Rat) : Option Rat) = some t0 ∧
        (3600 < (10:Rat) - t0 ∨ ((60:Int) : Rat) ≤ (10:Rat) - t0)) ∧
    should_end_incident
      { name := "user-api", service_type := "web",
        current_incident := some .MEMORY_LEAK, incident_start_time := some 0,
        incident_duration := 60 } 3601 = true ∧
    should_end_incident
      { name := "user-api", service_type := "web",
        current_incident := some .MEMORY_LEAK, incident_start_time := some 0,
        incident_duration := 5000 } 3601 = true :=
  ⟨C2_end_rule.1 _ 100 rfl,
   C2_end_rule.2.1 _ 10 rfl,
   C2_end_rule.2.2.1 _ 3601 0 rfl rfl rfl (by norm_num),
   C2_end_rule.2.2.2 _ 3601 0 rfl rfl rfl (by norm_num)⟩

/-- C3: the four vetoes of `should_start_incident` each force a `none` result
with the state unchanged (active own fault; fleet-wide concurrency at the
cap; runtime over 8 hours; more than 50 faults generated); the generated
counter never decreases across processing steps, so once the runtime or the
counter ceiling is crossed every later call returns `none` as well. -/
theorem C3_vetoes_and_disabling :
    (∀ (st : GenState) (svc : Service) (r : Rat) (d : Nat → Rat) (t : IncidentType),
      svc.current_incident = some t → should_start_incident st svc r d = (none, st)) ∧
    (∀ (st : GenState) (svc : Service) (r : Rat) (d : Nat → Rat),
      max_concurrent_incidents ≤ activeIncidentCount st.services →
      should_start_incident st svc r d = (none, st)) ∧
    (∀ (st : GenState) (svc : Service) (r : Rat) (d : Nat → Rat),
      8 < r / 3600 → should_start_incident st svc r d = (none, st)) ∧
    (∀ (st : GenState) (svc : Service) (r : Rat) (d : Nat → Rat),
      50 < st.total_incidents_generated → should_start_incident st svc r d = (none, st)) ∧
    (∀ (st : GenState) (i : Nat) (now : Rat) (d : Nat → Rat) (dur : Int) (db : DbService),
      st.total_incidents_generated ≤
        (process_service st i now d dur db).total_incidents_generated) ∧
    (∀ (r r2 : Rat), 8 < r / 3600 → r ≤ r2 →
      ∀ (st : GenState) (svc : Service) (d : Nat → Rat),
        (should_start_incident st svc r2 d).1 = none) ∧
    (∀ (st st2 : GenState), 50 < st.total_incidents_generated →
      st.total_incidents_generated ≤ st2.total_incidents_generated →
      ∀ (svc : Service) (r2 : Rat) (d : Nat → Rat),
        (should_start_incident st2 svc r2 d).1 = none) := by
  have veto3 : ∀ (st : GenState) (svc : Service) (r : Rat) (d : Nat → Rat),
      8 < r / 3600 → should_start_incident st svc r d = (none, st) := by
    intro st svc r d h
    unfold should_start_incident
    by_cases h1 : svc.current_incident.isSome = true
    · rw [if_pos h1]
    · rw [if_neg h1]
      by_cases h2 : max_concurrent_incidents ≤ activeIncidentCount st.services
      · rw [if_pos h2]
      · rw [if_neg h2, if_pos h]
  have veto4 : ∀ (st : GenState) (svc : Service) (r : Rat) (d : Nat → Rat),
      50 < st.total_incidents_generated → should_start_incident st svc r d = (none, st) := by
    intro st svc r d h
    unfold should_start_incident
    by_cases h1 : svc.current_incident.isSome = true
    · rw [if_pos h1]
    · rw [if_neg h1]
      by_cases h2 : max_concurrent_incidents ≤ activeIncidentCount st.services
      · rw [if_pos h2]
      · rw [if_neg h2]
        by_cases h3 : 8 < r / 3600
        · rw [if_pos h3]
        · rw [if_neg h3, if_pos h]
  refine ⟨?_, ?_, veto3, veto4, ?_, ?_, ?_⟩
  · intro st svc r d t h
    unfold should_start_incident
    rw [if_pos (by rw [h]; rfl)]
  · intro st svc r d h
    unfold should_start_incident
    by_cases h1 : svc.current_incident.isSome = true
    · rw [if_pos h1]
    · rw [if_neg h1, if_pos h]
  · exact process_service_total_mono
  · intro r r2 hr hle st svc d
    have h2 : 8 < r2 / 3600 := by
      have h3 : r / 3600 ≤ r2 / 3600 := by
        apply (div_le_div_iff_of_pos_right (by norm_num : (0:Rat) < 3600)).mpr hle
      linarith
    rw [veto3 st svc r2 d h2]
  · intro st st2 h1 h2 svc r2 d
    rw [veto4 st2 svc r2 d (by omega)]

theorem C3_vetoes_and_disabling_witness :
    should_start_incident (GenState.mk SERVICES 0 0)
      { name := "user-api", service_type := "web", current_incident := some .CPU_SPIKE }
      0 (fun _ => 0) = (none, GenState.mk SERVICES 0 0) ∧
    should_start_incident
      { services := [
          { name := "user-api", service_type := "web", current_incident := some .CPU_SPIKE },
          { name := "payment-service", service_type := "web", current_incident := some .MEMORY_LEAK },
          { name := "user-db", service_type := "database", current_incident := some .DISK_FULL }],
        total_incidents_generated := 3, generation_start_time := 0 }
      { name := "order-processor", service_type := "worker" } 0 (fun _ => 0) =
      (none,
        { services := [
            { name := "user-api", service_type := "web", current_incident := some .CPU_SPIKE },
            { name := "payment-service", service_type := "web", current_incident := some .MEMORY_LEAK },
            { name := "user-db", service_type := "database", current_incident := some .DISK_FULL }],
          total_incidents_generated := 3, generation_start_time := 0 }) ∧
    should_start_incident (GenState.mk SERVICES 0 0)
      { name := "user-api", service_type := "web" } 30000 (fun _ => 0) =
      (none, GenState.mk SERVICES 0 0) ∧
    should_start_incident (GenState.mk SERVICES 51 0)
      { name := "user-api", service_type := "web" } 0 (fun _ => 0) =
      (none, GenState.mk SERVICES 51 0) ∧
    (GenState.mk SERVICES 0 0).total_incidents_generated ≤
      (process_service (GenState.mk SERVICES 0 0) 0 0 (fun _ => 1) 60
        ok_db).total_incidents_generated ∧
    (should_start_incident (GenState.mk SERVICES 0 0)
      { name := "user-api", service_type := "web" } 40000 (fun _ => 0)).1 = none ∧
    (should_start_incident (GenState.mk SERVICES 60 0)
      { name := "user-api", service_type := "web" } 0 (fun _ => 0)).1 = none :=
  ⟨C3_vetoes_and_disabling.1 _ _ 0 (fun _ => 0) .CPU_SPIKE rfl,
   C3_vetoes_and_disabling.2.1 _ _ 0 (fun _ => 0) (by decide),
   C3_vetoes_and_disabling.2.2.1 _ _ 30000 (fun _ => 0) (by norm_num),
   C3_vetoes_and_disabling.2.2.2.1 _ _ 0 (fun _ => 0) (by norm_num),
   C3_vetoes_and_disabling.2.2.2.2.1 _ 0 0 (fun _ => 1) 60 ok_db,
   C3_vetoes_and_disabling.2.2.2.2.2.1 30000 40000 (by norm_num) (by norm_num)
     (GenState.mk SERVICES 0 0) _ (fun _ => 0),
   C3_vetoes_and_disabling.2.2.2.2.2.2 (GenState.mk SERVICES 51 0)
     (GenState.mk SERVICES 60 0) (by norm_num) (by norm_num) _ 0 (fun _ => 0)⟩

/-- C4: when no veto applies, `should_start_incident` selects the first
pattern, in declaration order among the patterns whose eligible list contains
the service's name, whose uniform draw is below its probability threshold
(each eligible pattern consuming its own draw); and the total-generated
counter grows by exactly one on a selection and is unchanged otherwise. -/
theorem C4_first_match_and_counter :
    (∀ (st : GenState) (svc : Service) (r : Rat) (d : Nat → Rat),
      svc.current_incident = none →
      activeIncidentCount st.services < max_concurrent_incidents →
      r / 3600 ≤ 8 →
      st.total_incidents_generated ≤ 50 →
      (should_start_incident st svc r d).1 =
        firstEligibleHit d 0
          (incident_patterns.filter (fun p => p.2.services.contains svc.name))) ∧
    (∀ (st : GenState) (svc : Service) (r : Rat) (d : Nat → Rat),
      (should_start_incident st svc r d).2.total_incidents_generated =
        if (should_start_incident st svc r d).1.isSome
        then st.total_incidents_generated + 1
        else st.total_incidents_generated) := by
  constructor
  · intro st svc r d h1 h2 h3 h4
    unfold should_start_incident
    rw [if_neg (by rw [h1]; simp), if_neg (by omega), if_neg (by
        intro hcon
        exact absurd h3 (not_le.mpr hcon)),
      if_neg (by omega), ← findPattern_eq_firstEligibleHit]
    cases hX : findPattern svc.name d 0 incident_patterns <;> simp [hX]
  · exact should_start_total

theorem C4_first_match_and_counter_witness :
    (should_start_incident (GenState.mk SERVICES 0 0)
        { name := "user-api", service_type := "web" } 0
        (fun i => if i = 0 then 1 else 0)).1 =
      firstEligibleHit (fun i => if i = 0 then 1 else 0) 0
        (incident_patterns.filter
          (fun p => p.2.services.contains "user-api")) ∧
    (should_start_incident (GenState.mk SERVICES 0 0)
        { name := "user-api", service_type := "web" } 0
        (fun i => if i = 0 then 1 else 0)).2.total_incidents_generated =
      if (should_start_incident (GenState.mk SERVICES 0 0)
          { name := "user-api", service_type := "web" } 0
          (fun i => if i = 0 then 1 else 0)).1.isSome
      then (GenState.mk SERVICES 0 0).total_incidents_generated + 1
      else (GenState.mk SERVICES 0 0).total_incidents_generated :=
  ⟨C4_first_match_and_counter.1 _ _ 0 _ rfl (by decide) (by norm_num) (by norm_num),
   C4_first_match_and_counter.2 _ _ 0 _⟩

theorem on_process_error_length (st : GenState) (i : Nat) :
    (on_process_error st i).services.length = st.services.length := by
  unfold on_process_error
  exact updateAt_length i _ st.services

theorem foldl_catching_length (now : Rat) (d : Nat → Nat → Rat)
    (durs : Nat → Int) (db : DbService) (fails : Nat → Bool)
    (idxs : List Nat) (s : GenState) :
    (idxs.foldl (fun s i =>
        if fails i then on_process_error (process_service s i now (d i) (durs i) db) i
        else process_service s i now (d i) (durs i) db) s).services.length =
      s.services.length := by
  induction idxs generalizing s with
  | nil => rfl
  | cons j rest ih =>
    rw [List.foldl_cons, ih]
    split
    · rw [on_process_error_length, process_service_services_length]
    · rw [process_service_services_length]

theorem process_service_start_shape (st : GenState) (i : Nat) (now : Rat)
    (d : Nat → Rat) (dur : Int) (db : DbService) (svc : Service)
    (t : IncidentType) (hget : st.services.get? i = some svc)
    (hinc : svc.current_incident = none)
    (hsel : (should_start_incident st svc (now - st.generation_start_time) d).1 = some t) :
    ∃ svc2, (process_service st i now d dur db).services.get? i = some svc2 ∧
      svc2.current_incident = some t ∧
      svc2.incident_start_time = some now ∧
      svc2.incident_duration = dur ∧
      svc2.current_incident_id =
        (match db.create_incident (incidentTypeValue t) svc.name with
         | .ok iid => some iid
         | .error _ => svc.current_incident_id) := by
  unfold process_service
  rw [hget]
  simp only
  rw [if_pos (by rw [hinc]; rfl)]
  rcases e : should_start_incident st svc (now - st.generation_start_time) d
    with ⟨res, st1⟩
  rw [e] at hsel
  simp only at hsel
  subst hsel
  simp only
  have h1 : st1.services = st.services := by
    have h2 := should_start_snd_services st svc (now - st.generation_start_time) d
    rw [e] at h2
    exact h2
  exact ⟨_, get?_updateAt_self _ (show st1.services.get? i = some svc by
    rw [h1]; exact hget), rfl, rfl, rfl, rfl⟩

theorem process_service_end_shape (st : GenState) (i : Nat) (now : Rat)
    (d : Nat → Rat) (dur : Int) (db : DbService) (svc : Service)
    (hget : st.services.get? i = some svc)
    (hinc : svc.current_incident.isSome = true)
    (hend : should_end_incident svc now = true) :
    ∃ svc2, (process_service st i now d dur db).services.get? i = some svc2 ∧
      svc2.current_incident = none ∧
      svc2.incident_start_time = none ∧
      svc2.incident_duration = 0 ∧
      svc2.current_incident_id = none := by
  unfold process_service
  rw [hget]
  simp only
  rw [if_neg (by
      cases h : svc.current_incident with
      | none => rw [h] at hinc; simp at hinc
      | some t => simp), if_pos hend]
  exact ⟨_, get?_updateAt_self _ hget, rfl, rfl, rfl, rfl⟩

theorem pods_state_fst (st : GenState) (i : Nat) (now : Rat) (d : Nat → Rat)
    (dur : Int) (db : DbService) (dr : String → Draws) (pf : String → Bool) :
    (process_service_with_pods st i now d dur db dr pf).1 =
      process_service st i now d dur db := by
  unfold process_service_with_pods
  dsimp only
  split <;> rfl

theorem filterMap_length_eq_filter (f : String → Option GenOut)
    (q : String → Bool) (l : List String) (h : ∀ x, (f x).isSome = q x) :
    (l.filterMap f).length = (l.filter q).length := by
  induction l with
  | nil => rfl
  | cons a rest ih =>
    rw [List.filterMap_cons, List.filter_cons]
    have ha := h a
    cases hfa : f a with
    | none =>
      rw [hfa] at ha
      simp only [Option.isSome_none] at ha
      rw [← ha]
      simp [ih]
    | some b =>
      rw [hfa] at ha
      simp only [Option.isSome_some] at ha
      rw [← ha]
      simp [ih]

/-- C6 (amended): a failing persistence collaborator is absorbed at each call
site and never disturbs the in-memory state machine: up to the opaque
incident-record handle, a processing step and a whole tick produce the same
generator state for any two collaborators; log and metric emissions are
produced unchanged when the collaborator raises; the start transition sets
the fault kind, start time and duration whether or not `create_incident`
succeeds, but on failure the handle field keeps its prior value (`None` after
a clean start, possibly a stale id after a defensive reset) instead of the
fresh handle; the end transition clears all four fault fields whether or not
`update_incident_status` succeeds. -/
theorem C6_collaborator_failure_tolerated :
    (∀ (st : GenState) (i : Nat) (now : Rat) (d : Nat → Rat) (dur : Int)
      (db1 db2 : DbService),
      erase_ids (process_service st i now d dur db1) =
        erase_ids (process_service st i now d dur db2)) ∧
    (∀ (st : GenState) (now : Rat) (d : Nat → Nat → Rat) (durs : Nat → Int)
      (db1 db2 : DbService),
      erase_ids (run_tick st now d durs db1) = erase_ids (run_tick st now d durs db2)) ∧
    (∀ (db : DbService) (svc pod lvl msg : String),
      push_log db svc pod lvl msg = (lvl, msg)) ∧
    (∀ (db : DbService) (svc pod nm : String) (v : Rat),
      store_metric db svc pod nm v = (nm, v)) ∧
    (∀ (st : GenState) (i : Nat) (now : Rat) (d : Nat → Rat) (dur : Int)
      (db : DbService) (svc : Service) (t : IncidentType),
      st.services.get? i = some svc →
      svc.current_incident = none →
      (should_start_incident st svc (now - st.generation_start_time) d).1 = some t →
      ∃ svc2, (process_service st i now d dur db).services.get? i = some svc2 ∧
        svc2.current_incident = some t ∧
        svc2.incident_start_time = some now ∧
        svc2.incident_duration = dur ∧
        svc2.current_incident_id =
          (match db.create_incident (incidentTypeValue t) svc.name with
           | .ok iid => some iid
           | .error _ => svc.current_incident_id)) ∧
    (∀ (st : GenState) (i : Nat) (now : Rat) (d : Nat → Rat) (dur : Int)
      (db : DbService) (svc : Service),
      st.services.get? i = some svc →
      svc.current_incident.isSome = true →
      should_end_incident svc now = true →
      ∃ svc2, (process_service st i now d dur db).services.get? i = some svc2 ∧
        svc2.current_incident = none ∧
        svc2.incident_start_time = none ∧
        svc2.incident_duration = 0 ∧
        svc2.current_incident_id = none) := by
  refine ⟨?_, ?_, ?_, ?_, ?_, ?_⟩
  · intro st i now d dur db1 db2
    exact process_service_erase i now d dur db1 db2 rfl
  · intro st now d durs db1 db2
    exact run_tick_erase st now d durs db1 db2
  · intro db svc pod lvl msg
    unfold push_log
    cases db.insert_log svc pod lvl msg <;> rfl
  · intro db svc pod nm v
    unfold store_metric
    cases db.insert_metric svc pod nm v <;> rfl
  · intro st i now d dur db svc t hget hinc hsel
    exact process_service_start_shape st i now d dur db svc t hget hinc hsel
  · intro st i now d dur db svc hget hinc hend
    exact process_service_end_shape st i now d dur db svc hget hinc hend

/-- C6 counterexample: after a defensive reset a service can carry a stale
incident-record id with no active fault; if `create_incident` fails on its
next fault start, the source skips the assignment (lines 476-484), so the
stale id remains — while a successful write would have stored the fresh
handle.  The fault fields are therefore not set exactly as they would be had
the external write succeeded. -/
theorem C6_counterexample :
    (∃ svc2, (process_service
        { services := [
            { name := "user-api", service_type := "web",
              current_incident_id := some "stale-1" }],
          total_incidents_generated := 0, generation_start_time := 0 }
        0 5 (fun _ => 0) 300 failing_db).services.get? 0 = some svc2 ∧
      svc2.current_incident = some .MEMORY_LEAK ∧
      svc2.current_incident_id = some "stale-1") ∧
    (∃ svc3, (process_service
        { services := [
            { name := "user-api", service_type := "web",
              current_incident_id := some "stale-1" }],
          total_incidents_generated := 0, generation_start_time := 0 }
        0 5 (fun _ => 0) 300 ok_db).services.get? 0 = some svc3 ∧
      svc3.current_incident = some .MEMORY_LEAK ∧
      svc3.current_incident_id = some "memory_leak@user-api") ∧
    (some "stale-1" : Option String) ≠ some "memory_leak@user-api" := by
  have hsel : (should_start_incident
      { services := [
          { name := "user-api", service_type := "web",
            current_incident_id := some "stale-1" }],
        total_incidents_generated := 0, generation_start_time := 0 }
      { name := "user-api", service_type := "web",
        current_incident_id := some "stale-1" }
      ((5 : Rat) - 0) (fun _ => 0)).1 = some .MEMORY_LEAK := by
    norm_num [should_start_incident, activeIncidentCount, max_concurrent_incidents,
      findPattern, incident_patterns]
  obtain ⟨svc2, hg2, ha2, -, -, hid2⟩ :=
    process_service_start_shape _ 0 5 (fun _ => 0) 300 failing_db
      { name := "user-api", service_type := "web",
        current_incident_id := some "stale-1" }
      .MEMORY_LEAK (by decide) rfl hsel
  obtain ⟨svc3, hg3, ha3, -, -, hid3⟩ :=
    process_service_start_shape _ 0 5 (fun _ => 0) 300 ok_db
      { name := "user-api", service_type := "web",
        current_incident_id := some "stale-1" }
      .MEMORY_LEAK (by decide) rfl hsel
  exact ⟨⟨svc2, hg2, ha2, hid2.trans (by decide)⟩,
    ⟨svc3, hg3, ha3, hid3.trans (by decide)⟩, by decide⟩

theorem C6_collaborator_failure_tolerated_witness :
    erase_ids (process_service (GenState.mk SERVICES 0 0) 0 5 (fun _ => 0) 300
        failing_db) =
      erase_ids (process_service (GenState.mk SERVICES 0 0) 0 5 (fun _ => 0) 300
        ok_db) ∧
    push_log failing_db "user-api" "user-api-1" "warn" "msg" = ("warn", "msg") ∧
    (∃ svc2, (process_service (GenState.mk SERVICES 0 0) 0 5 (fun _ => 0) 300
        failing_db).services.get? 0 = some svc2 ∧
      svc2.current_incident = some .MEMORY_LEAK ∧
      svc2.incident_start_time = some 5 ∧
      svc2.incident_duration = 300 ∧
      svc2.current_incident_id = none) ∧
    (∃ svc2, (process_service
        { services := [
            { name := "user-api", service_type := "web",
              current_incident := some .MEMORY_LEAK,
              incident_start_time := some 0, incident_duration := 60,
              current_incident_id := some "inc-1" }],
          total_incidents_generated := 1, generation_start_time := 0 }
        0 3601 (fun _ => 0) 300 failing_db).services.get? 0 = some svc2 ∧
      svc2.current_incident = none ∧
      svc2.incident_start_time = none ∧
      svc2.incident_duration = 0 ∧
      svc2.current_incident_id = none) :=
  ⟨C6_collaborator_failure_tolerated.1 _ 0 5 (fun _ => 0) 300 failing_db ok_db,
   C6_collaborator_failure_tolerated.2.2.1 failing_db "user-api" "user-api-1" "warn" "msg",
   C6_collaborator_failure_tolerated.2.2.2.2.1 _ 0 5 (fun _ => 0) 300 failing_db
     { name := "user-api", service_type := "web", base_cpu := 25, base_memory := 45,
       pods := ["user-api-1", "user-api-2"] } .MEMORY_LEAK
     (by decide) rfl (by norm_num [should_start_incident, activeIncidentCount,
       SERVICES, max_concurrent_incidents, findPattern, incident_patterns]),
   C6_collaborator_failure_tolerated.2.2.2.2.2 _ 0 3601 (fun _ => 0) 300 failing_db
     { name := "user-api", service_type := "web",
       current_incident := some .MEMORY_LEAK, incident_start_time := some 0,
       incident_duration := 60, current_incident_id := some "inc-1" }
     (by decide) rfl (by norm_num [should_end_incident])⟩

/-- C9 (amended): only an exception that reaches the outer per-service
boundary triggers the defensive reset: the outer handler clears the failing
service's fault kind and start time, leaves every other service untouched
(as does normal processing of a different index), and a tick in which any
subset of services raise at that boundary still processes the whole fleet.
An exception inside per-pod generation, however, is caught by the inner
per-pod handler, which never touches the fleet state: the pod's telemetry is
dropped, each remaining pod still produces its output, and the service's
fault state is NOT reset. -/
theorem C9_error_isolation :
    (∀ (st : GenState) (i : Nat) (svc : Service), st.services.get? i = some svc →
      ∃ svc2, (on_process_error st i).services.get? i = some svc2 ∧
        svc2.current_incident = none ∧ svc2.incident_start_time = none) ∧
    (∀ (st : GenState) (i j : Nat), j ≠ i →
      (on_process_error st i).services.get? j = st.services.get? j) ∧
    (∀ (st : GenState) (i : Nat) (now : Rat) (d : Nat → Rat) (dur : Int)
      (db : DbService) (j : Nat), j ≠ i →
      (process_service st i now d dur db).services.get? j = st.services.get? j) ∧
    (∀ (st : GenState) (now : Rat) (d : Nat → Nat → Rat) (durs : Nat → Int)
      (db : DbService) (outer_fails : Nat → Bool),
      (run_tick_catching st now d durs db outer_fails).services.length =
        st.services.length) ∧
    (∀ (st : GenState) (i : Nat) (now : Rat) (d : Nat → Rat) (dur : Int)
      (db : DbService) (dr : String → Draws) (pf : String → Bool),
      (process_service_with_pods st i now d dur db dr pf).1 =
        process_service st i now d dur db) ∧
    (∀ (st : GenState) (i : Nat) (now : Rat) (d : Nat → Rat) (dur : Int)
      (db : DbService) (dr : String → Draws) (pf : String → Bool)
      (svc : Service) (t : IncidentType),
      (process_service st i now d dur db).services.get? i = some svc →
      svc.current_incident = some t →
      ∃ svc2, (process_service_with_pods st i now d dur db dr pf).1.services.get? i
          = some svc2 ∧ svc2.current_incident = some t) ∧
    (∀ (st : GenState) (i : Nat) (now : Rat) (d : Nat → Rat) (dur : Int)
      (db : DbService) (dr : String → Draws) (pf : String → Bool)
      (svc : Service),
      (process_service st i now d dur db).services.get? i = some svc →
      (svc.current_incident = none ∨ svc.incident_start_time.isSome = true) →
      (process_service_with_pods st i now d dur db dr pf).2.length =
        (svc.pods.filter (fun p => !(pf p))).length) := by
  refine ⟨?_, ?_, ?_, ?_, ?_, ?_, ?_⟩
  · intro st i svc hget
    exact ⟨_, get?_updateAt_self _ hget, rfl, rfl⟩
  · intro st i j hj
    exact get?_updateAt_ne i _ st.services j hj
  · intro st i now d dur db j hj
    exact process_service_get?_ne st i now d dur db j hj
  · intro st now d durs db outer_fails
    unfold run_tick_catching
    exact foldl_catching_length now d durs db outer_fails _ st
  · intro st i now d dur db dr pf
    exact pods_state_fst st i now d dur db dr pf
  · intro st i now d dur db dr pf svc t hget hfault
    rw [pods_state_fst]
    exact ⟨svc, hget, hfault⟩
  · intro st i now d dur db dr pf svc hget hshape
    unfold process_service_with_pods
    dsimp only
    rw [hget]
    dsimp only
    apply filterMap_length_eq_filter
    intro x
    by_cases hx : pf x = true
    · simp [hx]
    · rw [if_neg hx]
      rcases hshape with h | h
      · rw [h]
        simp only [Option.isSome_none, Bool.false_eq_true, if_false,
          Option.isSome_some]
        simp [hx]
      · rw [Bool.not_eq_true] at hx
        cases hst : svc.incident_start_time with
        | none => rw [hst] at h; simp at h
        | some t0 =>
          by_cases hi : svc.current_incident.isSome = true
          · simp [hi, hst, hx]
          · simp [Bool.not_eq_true] at hi
            simp [hi, hx]

/-- C9 counterexample: a service in an active memory_leak fault whose only
pod's generation raises is handled by the inner per-pod handler: after the
processing step the fault is still active (the defensive reset did not
happen) and only the telemetry of the failing pod is lost — refuting the
claim that a per-pod generation exception resets the service's fault state. -/
theorem C9_counterexample :
    (∃ svc2, (process_service_with_pods
        { services := [
            { name := "user-api", service_type := "web",
              pods := ["user-api-1"], current_incident := some .MEMORY_LEAK,
              incident_start_time := some 0, incident_duration := 600,
              current_incident_id := some "inc-1" }],
          total_incidents_generated := 1, generation_start_time := 0 }
        0 5 (fun _ => 0) 300 failing_db (fun _ => {}) (fun _ => true)).1.services.get? 0
        = some svc2 ∧
      svc2.current_incident = some .MEMORY_LEAK ∧
      svc2.incident_start_time = some 0 ∧
      ¬ svc2.current_incident = none) ∧
    (process_service_with_pods
      { services := [
          { name := "user-api", service_type := "web",
            pods := ["user-api-1"], current_incident := some .MEMORY_LEAK,
            incident_start_time := some 0, incident_duration := 600,
            current_incident_id := some "inc-1" }],
        total_incidents_generated := 1, generation_start_time := 0 }
      0 5 (fun _ => 0) 300 failing_db (fun _ => {}) (fun _ => true)).2 = [] := by
  have hps : process_service
      { services := [
          { name := "user-api", service_type := "web",
            pods := ["user-api-1"], current_incident := some .MEMORY_LEAK,
            incident_start_time := some 0, incident_duration := 600,
            current_incident_id := some "inc-1" }],
        total_incidents_generated := 1, generation_start_time := 0 }
      0 5 (fun _ => 0) 300 failing_db =
      { services := [
          { name := "user-api", service_type := "web",
            pods := ["user-api-1"], current_incident := some .MEMORY_LEAK,
            incident_start_time := some 0, incident_duration := 600,
            current_incident_id := some "inc-1" }],
        total_incidents_generated := 1, generation_start_time := 0 } := by
    norm_num [process_service, should_end_incident]
  constructor
  · have hg : (process_service_with_pods
        { services := [
            { name := "user-api", service_type := "web",
              pods := ["user-api-1"], current_incident := some .MEMORY_LEAK,
              incident_start_time := some 0, incident_duration := 600,
              current_incident_id := some "inc-1" }],
          total_incidents_generated := 1, generation_start_time := 0 }
        0 5 (fun _ => 0) 300 failing_db (fun _ => {})
        (fun _ => true)).1.services.get? 0 =
        some { name := "user-api", service_type := "web",
               pods := ["user-api-1"], current_incident := some .MEMORY_LEAK,
               incident_start_time := some 0, incident_duration := 600,
               current_incident_id := some "inc-1" } := by
      rw [pods_state_fst, hps]
      rfl
    exact ⟨_, hg, rfl, rfl, by decide⟩
  · unfold process_service_with_pods
    dsimp only
    rw [hps]
    rfl

theorem C9_error_isolation_witness :
    (∃ svc2, (on_process_error (GenState.mk SERVICES 0 0) 0).services.get? 0 =
        some svc2 ∧ svc2.current_incident = none ∧ svc2.incident_start_time = none) ∧
    (on_process_error (GenState.mk SERVICES 0 0) 0).services.get? 1 =
      (GenState.mk SERVICES 0 0).services.get? 1 ∧
    (process_service (GenState.mk SERVICES 0 0) 0 5 (fun _ => 0) 300
        failing_db).services.get? 1 = (GenState.mk SERVICES 0 0).services.get? 1 ∧
    (run_tick_catching (GenState.mk SERVICES 0 0) 5 (fun _ _ => 0) (fun _ => 300)
        failing_db (fun i => i = 0)).services.length =
      (GenState.mk SERVICES 0 0).services.length ∧
    (∃ svc2, (process_service_with_pods
        { services := [
            { name := "user-api", service_type := "web",
              pods := ["user-api-1", "user-api-2"],
              current_incident := some .MEMORY_LEAK,
              incident_start_time := some 0, incident_duration := 600 }],
          total_incidents_generated := 1, generation_start_time := 0 }
        0 5 (fun _ => 0) 300 failing_db (fun _ => {})
        (fun p => p = "user-api-1")).1.services.get? 0 = some svc2 ∧
      svc2.current_incident = some .MEMORY_LEAK) ∧
    (process_service_with_pods
      { services := [
          { name := "user-api", service_type := "web",
            pods := ["user-api-1", "user-api-2"],
            current_incident := some .MEMORY_LEAK,
            incident_start_time := some 0, incident_duration := 600 }],
        total_incidents_generated := 1, generation_start_time := 0 }
      0 5 (fun _ => 0) 300 failing_db (fun _ => {})
      (fun p => p = "user-api-1")).2.length =
      (["user-api-1", "user-api-2"].filter
        (fun p => !(decide (p = "user-api-1")))).length :=
  ⟨C9_error_isolation.1 _ 0
     { name := "user-api", service_type := "web", base_cpu := 25, base_memory := 45,
       pods := ["user-api-1", "user-api-2"] } (by decide),
   C9_error_isolation.2.1 _ 0 1 (by decide),
   C9_error_isolation.2.2.1 _ 0 5 (fun _ => 0) 300 failing_db 1 (by decide),
   C9_error_isolation.2.2.2.1 _ 5 (fun _ _ => 0) (fun _ => 300) failing_db
     (fun i => i = 0),
   C9_error_isolation.2.2.2.2.2.1 _ 0 5 (fun _ => 0) 300 failing_db (fun _ => {})
     (fun p => p = "user-api-1")
     { name := "user-api", service_type := "web",
       pods := ["user-api-1", "user-api-2"],
       current_incident := some .MEMORY_LEAK,
       incident_start_time := some 0, incident_duration := 600 }
     .MEMORY_LEAK (by norm_num [process_service, should_end_incident]) rfl,
   C9_error_isolation.2.2.2.2.2.2 _ 0 5 (fun _ => 0) 300 failing_db (fun _ => {})
     (fun p => p = "user-api-1")
     { name := "user-api", service_type := "web",
       pods := ["user-api-1", "user-api-2"],
       current_incident := some .MEMORY_LEAK,
       incident_start_time := some 0, incident_duration := 600 }
     (by norm_num [process_service, should_end_incident]) (Or.inr rfl)⟩

theorem push_log_eq (db : DbService) (s p lvl m : String) :
    push_log db s p lvl m = (lvl, m) := by
  unfold push_log
  cases db.insert_log s p lvl m <;> rfl

theorem store_metric_eq (db : DbService) (s p nm : String) (v : Rat) :
    store_metric db s p nm v = (nm, v) := by
  unfold store_metric
  cases db.insert_metric s p nm v <;> rfl

/-- C7 (amended): during a disk_full fault the emitted disk percentage is
min(99, 70 + elapsed/10); when it is at most 90 a single warn-level log is
emitted, and only when it is strictly greater than 90 are the two error-level
logs (critical disk space plus write failure) emitted — at exactly 90 the
code still emits the warn-level log. -/
theorem C7_disk_full_pattern :
    ∀ (svc : Service) (pod : String) (e : Nat) (cpu_d : Int) (db : DbService),
      (("disk_usage", ((min 99 (70 + ((e / 10 : Nat) : Int)) : Int) : Rat)) ∈
        (generate_disk_full_incident db svc pod e cpu_d).metrics) ∧
      ((min 99 (70 + ((e / 10 : Nat) : Int)) : Int) ≤ 90 →
        (generate_disk_full_incident db svc pod e cpu_d).logs.map Prod.fst =
          ["warn"]) ∧
      (90 < (min 99 (70 + ((e / 10 : Nat) : Int)) : Int) →
        (generate_disk_full_incident db svc pod e cpu_d).logs.map Prod.fst =
          ["error", "error"]) := by
  intro svc pod e cpu_d db
  unfold generate_disk_full_incident
  dsimp only
  refine ⟨?_, ?_, ?_⟩
  · simp
  · intro h
    rw [if_neg (by omega)]
    simp [push_log_eq]
  · intro h
    rw [if_pos h]
    simp [push_log_eq]

theorem C7_disk_full_pattern_witness :
    (generate_disk_full_incident failing_db
      { name := "user-db", service_type := "database", base_cpu := 50,
        base_memory := 80, base_connections := 50, pods := ["user-db-1"] }
      "user-db-1" 0 5).logs.map Prod.fst = ["warn"] ∧
    (generate_disk_full_incident failing_db
      { name := "user-db", service_type := "database", base_cpu := 50,
        base_memory := 80, base_connections := 50, pods := ["user-db-1"] }
      "user-db-1" 300 5).logs.map Prod.fst = ["error", "error"] :=
  ⟨(C7_disk_full_pattern _ "user-db-1" 0 5 failing_db).2.1 (by decide),
   (C7_disk_full_pattern _ "user-db-1" 300 5 failing_db).2.2 (by decide)⟩

/-- C7 counterexample: at elapsed 200 seconds the emitted disk percentage is
exactly 90 — which satisfies "greater than or equal to 90" — yet the code
emits a single warn-level log and no error logs, because its branch condition
is the strict `disk_percent > 90`. -/
theorem C7_counterexample :
    ("disk_usage", ((90 : Int) : Rat)) ∈
      (generate_disk_full_incident failing_db
        { name := "user-db", service_type := "database", base_cpu := 50,
          base_memory := 80, base_connections := 50, pods := ["user-db-1"] }
        "user-db-1" 200 5).metrics ∧
    (90 : Int) ≥ 90 ∧
    (generate_disk_full_incident failing_db
      { name := "user-db", service_type := "database", base_cpu := 50,
        base_memory := 80, base_connections := 50, pods := ["user-db-1"] }
      "user-db-1" 200 5).logs.map Prod.fst = ["warn"] := by
  have h90 : (min 99 (70 + ((200 / 10 : Nat) : Int)) : Int) = 90 := by decide
  refine ⟨?_, by norm_num, ?_⟩
  · unfold generate_disk_full_incident
    dsimp only
    simp only [h90]
    simp
  · unfold generate_disk_full_incident
    dsimp only
    rw [if_neg (by omega)]
    simp [push_log_eq]

/-- C8: for a service whose baseline memory is 40, a memory_leak fault at
elapsed 150 seconds emits exactly memory value min(98, 40 + 150/5) = 70, and
because 150 exceeds the 120-second escalation threshold only error-level log
lines are emitted. -/
theorem C8_memory_leak_scenario :
    ∀ (svc : Service) (pod : String) (cpu_d gc_d : Int) (db : DbService),
      svc.base_memory = 40 →
      (("memory_usage", ((70 : Int) : Rat)) ∈
        (generate_memory_leak_incident db svc pod 150 cpu_d gc_d).metrics) ∧
      (generate_memory_leak_incident db svc pod 150 cpu_d gc_d).logs.map
        Prod.fst = ["error", "error"] ∧
      ∀ l ∈ (generate_memory_leak_incident db svc pod 150 cpu_d gc_d).logs,
        l.1 = "error" := by
  intro svc pod cpu_d gc_d db hmem
  unfold generate_memory_leak_incident
  rw [hmem]
  dsimp only
  have h70 : (min 98 ((40 : Int) + min 50 ((150 / 5 : Nat) : Int)) : Int) = 70 := by
    decide
  refine ⟨?_, ?_, ?_⟩
  · rw [store_metric_eq, store_metric_eq, store_metric_eq, h70]
    simp
  · rw [if_neg (by norm_num), if_neg (by norm_num)]
    simp [push_log_eq]
  · rw [if_neg (by norm_num), if_neg (by norm_num)]
    simp [push_log_eq]

theorem C8_memory_leak_scenario_witness :
    (("memory_usage", ((70 : Int) : Rat)) ∈
      (generate_memory_leak_incident failing_db
        { name := "user-api", service_type := "web", base_memory := 40 }
        "user-api-1" 150 5 100).metrics) ∧
    (generate_memory_leak_incident failing_db
      { name := "user-api", service_type := "web", base_memory := 40 }
      "user-api-1" 150 5 100).logs.map Prod.fst = ["error", "error"] ∧
    ∀ l ∈ (generate_memory_leak_incident failing_db
        { name := "user-api", service_type := "web", base_memory := 40 }
        "user-api-1" 150 5 100).logs, l.1 = "error" :=
  C8_memory_leak_scenario _ "user-api-1" 5 100 failing_db rfl

/-- C10: the memory_leak generator emits memory value
min(98, base_memory + min(50, elapsed/5)) — the per-fault growth is capped at
50 points above baseline — so a service with baseline memory below 48 never
reaches the 98 ceiling and plateaus at base_memory + 50 from elapsed 250
seconds on. -/
theorem C10_memory_leak_growth_cap :
    ∀ (svc : Service) (pod : String) (e : Nat) (cpu_d gc_d : Int) (db : DbService),
      (generate_memory_leak_incident db svc pod e cpu_d gc_d).metrics.head? =
        some ("memory_usage",
          ((min 98 (svc.base_memory + min 50 ((e / 5 : Nat) : Int)) : Int) : Rat)) ∧
      (svc.base_memory < 48 →
        (min 98 (svc.base_memory + min 50 ((e / 5 : Nat) : Int)) : Int) < 98 ∧
        (250 ≤ e →
          (min 98 (svc.base_memory + min 50 ((e / 5 : Nat) : Int)) : Int) =
            svc.base_memory + 50)) := by
  intro svc pod e cpu_d gc_d db
  have h5 : (0 : Int) ≤ ((e / 5 : Nat) : Int) := Int.ofNat_nonneg _
  have hg1 : min 50 ((e / 5 : Nat) : Int) ≤ 50 := min_le_left _ _
  have hg0 : (0 : Int) ≤ min 50 ((e / 5 : Nat) : Int) := le_min (by norm_num) h5
  constructor
  · unfold generate_memory_leak_incident
    dsimp only
    rw [store_metric_eq]
    rfl
  · intro hb
    have hlt : svc.base_memory + min 50 ((e / 5 : Nat) : Int) < 98 := by omega
    refine ⟨by rw [min_eq_right (le_of_lt hlt)]; exact hlt, ?_⟩
    intro he
    have h50n : (50 : Nat) ≤ e / 5 := by
      calc (50 : Nat) = 250 / 5 := by norm_num
        _ ≤ e / 5 := Nat.div_le_div_right he
    have h50 : (50 : Int) ≤ ((e / 5 : Nat) : Int) := by exact_mod_cast h50n
    rw [min_eq_left h50, min_eq_right (by omega : svc.base_memory + 50 ≤ 98)]

theorem C10_memory_leak_growth_cap_witness :
    (generate_memory_leak_incident failing_db
      { name := "user-api", service_type := "web", base_memory := 40 }
      "user-api-1" 300 5 100).metrics.head? =
      some ("memory_usage",
        ((min 98 ((40 : Int) + min 50 ((300 / 5 : Nat) : Int)) : Int) : Rat)) ∧
    (min 98 ((40 : Int) + min 50 ((300 / 5 : Nat) : Int)) : Int) < 98 ∧
    (min 98 ((40 : Int) + min 50 ((300 / 5 : Nat) : Int)) : Int) = 40 + 50 := by
  have h := C10_memory_leak_growth_cap
    { name := "user-api", service_type := "web", base_memory := 40 }
    "user-api-1" 300 5 100 failing_db
  obtain ⟨h1, h2⟩ := h
  obtain ⟨h3, h4⟩ := h2 (by norm_num)
  exact ⟨h1, h3, h4 (by norm_num)⟩

theorem metricWithinBounds_intCast (nm : String) (v : Int) (h0 : 0 ≤ v)
    (hmem : nm = "memory_usage" → 1 ≤ v ∧ v ≤ 98)
    (hq : nm = "queue_depth" → 100 ≤ v ∧ v ≤ 10000) :
    metricWithinBounds nm ((v : Int) : Rat) := by
  refine ⟨by exact_mod_cast h0, ?_, ?_⟩
  · intro h
    obtain ⟨a, b⟩ := hmem h
    exact ⟨by exact_mod_cast a, by exact_mod_cast b⟩
  · intro h
    obtain ⟨a, b⟩ := hq h
    exact ⟨by exact_mod_cast a, by exact_mod_cast b⟩

theorem memory_leak_metric_bounds (db : DbService) (svc : Service) (pod : String)
    (e : Nat) (cpu_d gc_d : Int) (hb : 1 ≤ svc.base_memory)
    (hc : 0 ≤ svc.base_cpu) (h1 : 5 ≤ cpu_d) (h3 : 100 ≤ gc_d) :
    ∀ p ∈ (generate_memory_leak_incident db svc pod e cpu_d gc_d).metrics,
      metricWithinBounds p.1 p.2 := by
  unfold generate_memory_leak_incident
  dsimp only
  rw [store_metric_eq, store_metric_eq, store_metric_eq]
  intro p hp
  have hg0 : (0 : Int) ≤ ((e / 5 : Nat) : Int) := Int.ofNat_nonneg _
  simp only [List.mem_cons, List.not_mem_nil, or_false] at hp
  rcases hp with rfl | rfl | rfl
  · exact metricWithinBounds_intCast _ _ (by omega)
      (fun _ => by constructor <;> omega) (fun h => by simp at h)
  · exact metricWithinBounds_intCast _ _ (by omega)
      (fun h => by simp at h) (fun h => by simp at h)
  · exact metricWithinBounds_intCast _ _ (by omega)
      (fun h => by simp at h) (fun h => by simp at h)

theorem cpu_spike_metric_bounds (db : DbService) (svc : Service) (pod : String)
    (cpu_d mem_d : Int) (resp_d : Rat) (hb1 : 1 ≤ svc.base_memory)
    (hb2 : svc.base_memory ≤ 83) (h1 : 91 ≤ cpu_d) (h2 : 5 ≤ mem_d)
    (h3 : mem_d ≤ 15) (h4 : 2 ≤ resp_d) :
    ∀ p ∈ (generate_cpu_spike_incident db svc pod cpu_d mem_d resp_d).metrics,
      metricWithinBounds p.1 p.2 := by
  unfold generate_cpu_spike_incident
  dsimp only
  intro p hp
  simp only [List.mem_cons, List.not_mem_nil, or_false] at hp
  rcases hp with rfl | rfl | rfl
  · exact metricWithinBounds_intCast _ _ (by omega)
      (fun h => by simp at h) (fun h => by simp at h)
  · exact metricWithinBounds_intCast _ _ (by omega)
      (fun _ => by constructor <;> omega) (fun h => by simp at h)
  · exact ⟨by linarith, fun h => by simp at h, fun h => by simp at h⟩

theorem disk_full_metric_bounds (db : DbService) (svc : Service) (pod : String)
    (e : Nat) (cpu_d : Int) (hb1 : 1 ≤ svc.base_memory)
    (hb2 : svc.base_memory ≤ 98) (hc : 0 ≤ svc.base_cpu) (h1 : 5 ≤ cpu_d) :
    ∀ p ∈ (generate_disk_full_incident db svc pod e cpu_d).metrics,
      metricWithinBounds p.1 p.2 := by
  unfold generate_disk_full_incident
  dsimp only
  intro p hp
  have hg0 : (0 : Int) ≤ ((e / 10 : Nat) : Int) := Int.ofNat_nonneg _
  simp only [List.mem_cons, List.not_mem_nil, or_false] at hp
  rcases hp with rfl | rfl | rfl
  · exact metricWithinBounds_intCast _ _ (by omega)
      (fun h => by simp at h) (fun h => by simp at h)
  · exact metricWithinBounds_intCast _ _ (by omega)
      (fun _ => by constructor <;> omega) (fun h => by simp at h)
  · exact metricWithinBounds_intCast _ _ (by omega)
      (fun h => by simp at h) (fun h => by simp at h)

theorem network_latency_metric_bounds (db : DbService) (svc : Service)
    (pod : String) (cpu_d mem_d lat_d err_d : Int) (hb1 : 1 ≤ svc.base_memory)
    (hb2 : svc.base_memory ≤ 88) (hc : 0 ≤ svc.base_cpu) (h1 : 0 ≤ cpu_d)
    (h2 : 0 ≤ mem_d) (h3 : mem_d ≤ 10) (h4 : 500 ≤ lat_d) (h5 : 5 ≤ err_d) :
    ∀ p ∈ (generate_network_latency_incident db svc pod cpu_d mem_d lat_d
        err_d).metrics, metricWithinBounds p.1 p.2 := by
  unfold generate_network_latency_incident
  dsimp only
  intro p hp
  simp only [List.mem_cons, List.not_mem_nil, or_false] at hp
  rcases hp with rfl | rfl | rfl | rfl
  · exact metricWithinBounds_intCast _ _ (by omega)
      (fun h => by simp at h) (fun h => by simp at h)
  · exact metricWithinBounds_intCast _ _ (by omega)
      (fun _ => by constructor <;> omega) (fun h => by simp at h)
  · exact metricWithinBounds_intCast _ _ (by omega)
      (fun h => by simp at h) (fun h => by simp at h)
  · exact metricWithinBounds_intCast _ _ (by omega)
      (fun h => by simp at h) (fun h => by simp at h)

theorem queue_backlog_metric_bounds (db : DbService) (svc : Service)
    (pod : String) (e : Nat) (cpu_d mem_d : Int) (hb1 : 1 ≤ svc.base_memory)
    (hb2 : svc.base_memory ≤ 83) (hc : 0 ≤ svc.base_cpu) (h1 : 5 ≤ cpu_d)
    (h2 : 5 ≤ mem_d) (h3 : mem_d ≤ 15) :
    ∀ p ∈ (generate_queue_backlog_incident db svc pod e cpu_d mem_d).metrics,
      metricWithinBounds p.1 p.2 := by
  unfold generate_queue_backlog_incident
  dsimp only
  intro p hp
  have he0 : (0 : Int) ≤ (e : Int) := Int.ofNat_nonneg _
  simp only [List.mem_cons, List.not_mem_nil, or_false] at hp
  rcases hp with rfl | rfl | rfl
  · exact metricWithinBounds_intCast _ _ (by omega)
      (fun h => by simp at h) (fun h => by simp at h)
  · exact metricWithinBounds_intCast _ _ (by omega)
      (fun _ => by constructor <;> omega) (fun h => by simp at h)
  · exact metricWithinBounds_intCast _ _ (by omega)
      (fun h => by simp at h) (fun _ => by constructor <;> omega)

theorem gc_pressure_metric_bounds (db : DbService) (svc : Service)
    (pod : String) (cpu_d mem_d gc_d : Int) (resp_d : Rat)
    (hb1 : 1 ≤ svc.base_memory) (hb2 : svc.base_memory ≤ 73)
    (hc : 0 ≤ svc.base_cpu) (h1 : 15 ≤ cpu_d) (h2 : 10 ≤ mem_d)
    (h3 : mem_d ≤ 25) (h4 : 200 ≤ gc_d) (h5 : 1 ≤ resp_d) :
    ∀ p ∈ (generate_gc_pressure_incident db svc pod cpu_d mem_d gc_d
        resp_d).metrics, metricWithinBounds p.1 p.2 := by
  unfold generate_gc_pressure_incident
  dsimp only
  intro p hp
  simp only [List.mem_cons, List.not_mem_nil, or_false] at hp
  rcases hp with rfl | rfl | rfl | rfl
  · exact metricWithinBounds_intCast _ _ (by omega)
      (fun h => by simp at h) (fun h => by simp at h)
  · exact metricWithinBounds_intCast _ _ (by omega)
      (fun _ => by constructor <;> omega) (fun h => by simp at h)
  · exact metricWithinBounds_intCast _ _ (by omega)
      (fun h => by simp at h) (fun h => by simp at h)
  · exact ⟨by linarith, fun h => by simp at h, fun h => by simp at h⟩

theorem error_burst_metric_bounds (db : DbService) (svc : Service)
    (pod : String) (cpu_d mem_d err_d : Int) (count_d : Nat)
    (pick_d : Nat → Nat) (hb1 : 1 ≤ svc.base_memory)
    (hb2 : svc.base_memory ≤ 83) (hc : 0 ≤ svc.base_cpu) (h1 : 0 ≤ cpu_d)
    (h2 : 0 ≤ mem_d) (h3 : mem_d ≤ 15) (h4 : 10 ≤ err_d) :
    ∀ p ∈ (generate_error_burst_incident db svc pod cpu_d mem_d err_d count_d
        pick_d).metrics, metricWithinBounds p.1 p.2 := by
  unfold generate_error_burst_incident
  dsimp only
  intro p hp
  simp only [List.mem_cons, List.not_mem_nil, or_false] at hp
  rcases hp with rfl | rfl | rfl
  · exact metricWithinBounds_intCast _ _ (by omega)
      (fun h => by simp at h) (fun h => by simp at h)
  · exact metricWithinBounds_intCast _ _ (by omega)
      (fun _ => by constructor <;> omega) (fun h => by simp at h)
  · exact metricWithinBounds_intCast _ _ (by omega)
      (fun h => by simp at h) (fun h => by simp at h)

theorem database_slow_metric_shape (db : DbService) (svc : Service)
    (pod : String) (e : Nat) (cpu_d mem_d : Int) (resp_d : Rat) (slow_d : Int)
    (hb : 0 ≤ svc.base_memory) (hc : 0 ≤ svc.base_cpu)
    (hconn : 0 ≤ svc.base_connections) (h1 : 10 ≤ cpu_d) (h2 : 5 ≤ mem_d)
    (h4 : 5 ≤ resp_d) :
    ∀ p ∈ (generate_database_slow_incident db svc pod e cpu_d mem_d resp_d
        slow_d).metrics,
      0 ≤ p.2 ∧ (p.1 = "memory_usage" →
        p.2 = ((svc.base_memory + mem_d : Int) : Rat)) := by
  unfold generate_database_slow_incident
  dsimp only
  intro p hp
  have hg0 : (0 : Int) ≤ ((e / 3 : Nat) : Int) := Int.ofNat_nonneg _
  simp only [List.mem_cons, List.not_mem_nil, or_false] at hp
  rcases hp with rfl | rfl | rfl | rfl
  · exact ⟨by dsimp only; exact_mod_cast (by omega : (0:Int) ≤ svc.base_cpu + cpu_d),
      fun h => by simp at h⟩
  · exact ⟨by dsimp only; exact_mod_cast (by omega : (0:Int) ≤ svc.base_memory + mem_d),
      fun _ => rfl⟩
  · exact ⟨by dsimp only; exact_mod_cast
      (by omega : (0:Int) ≤ 200 ⊓ (svc.base_connections + ((e / 3 : Nat) : Int))),
      fun h => by simp at h⟩
  · exact ⟨by linarith, fun h => by simp at h⟩

theorem connection_leak_metric_shape (db : DbService) (svc : Service)
    (pod : String) (e : Nat) (cpu_d mem_d : Int) (hb : 0 ≤ svc.base_memory)
    (hc : 0 ≤ svc.base_cpu) (hconn : 0 ≤ svc.base_connections)
    (h1 : 0 ≤ cpu_d) (h2 : 10 ≤ mem_d) :
    ∀ p ∈ (generate_connection_leak_incident db svc pod e cpu_d mem_d).metrics,
      0 ≤ p.2 ∧ (p.1 = "memory_usage" →
        p.2 = ((svc.base_memory + mem_d : Int) : Rat)) := by
  unfold generate_connection_leak_incident
  dsimp only
  intro p hp
  have hg0 : (0 : Int) ≤ ((e / 2 : Nat) : Int) := Int.ofNat_nonneg _
  simp only [List.mem_cons, List.not_mem_nil, or_false] at hp
  rcases hp with rfl | rfl | rfl
  · exact ⟨by dsimp only; exact_mod_cast (by omega : (0:Int) ≤ svc.base_cpu + cpu_d),
      fun h => by simp at h⟩
  · exact ⟨by dsimp only; exact_mod_cast (by omega : (0:Int) ≤ svc.base_memory + mem_d),
      fun _ => rfl⟩
  · exact ⟨by dsimp only; exact_mod_cast
      (by omega : (0:Int) ≤ 150 ⊓ (svc.base_connections + ((e / 2 : Nat) : Int))),
      fun h => by simp at h⟩

theorem normal_operation_metric_bounds (db : DbService) (svc : Service)
    (pod : String) (cpu_d mem_d conn_d : Int) (log_d : Rat) (req_d : Int)
    (mp : Nat) (hb : svc.base_memory ≤ 88) (hconn : 5 ≤ svc.base_connections)
    (h2 : mem_d ≤ 10) (h3 : -5 ≤ conn_d) :
    ∀ p ∈ (generate_normal_operation db svc pod cpu_d mem_d conn_d log_d req_d
        mp).metrics, metricWithinBounds p.1 p.2 := by
  unfold generate_normal_operation
  dsimp only
  intro p hp
  rw [List.mem_append] at hp
  rcases hp with hp | hp
  · simp only [List.mem_cons, List.not_mem_nil, or_false] at hp
    rcases hp with rfl | rfl
    · exact metricWithinBounds_intCast _ _ (by omega)
        (fun h => by simp at h) (fun h => by simp at h)
    · exact metricWithinBounds_intCast _ _ (by omega)
        (fun _ => by constructor <;> omega) (fun h => by simp at h)
  · by_cases hdb : (svc.service_type == "database") = true
    · rw [if_pos hdb] at hp
      simp only [List.mem_cons, List.not_mem_nil, or_false] at hp
      subst hp
      exact metricWithinBounds_intCast _ _ (by omega)
        (fun h => by simp at h) (fun h => by simp at h)
    · rw [if_neg hdb] at hp
      simp at hp

/-- C5 counterexample: the connection_leak generator adds an uncapped
randint(10,25) to the baseline memory; on the eligible service user-db
(baseline memory 80) a draw of 25 emits the memory-usage value 105, which
exceeds the documented ceiling of 98 — so not every emitted metric value lies
within its documented bounds. -/
theorem C5_counterexample :
    (∃ cfg : PatternConfig, (IncidentType.CONNECTION_LEAK, cfg) ∈ incident_patterns ∧
      "user-db" ∈ cfg.services) ∧
    ((10 : Int) ≤ 25 ∧ (25 : Int) ≤ 25) ∧
    ("memory_usage", ((105 : Int) : Rat)) ∈
      (generate_connection_leak_incident failing_db
        { name := "user-db", service_type := "database", base_cpu := 50,
          base_memory := 80, base_connections := 50, pods := ["user-db-1"],
          current_incident := some .CONNECTION_LEAK }
        "user-db-1" 0 0 25).metrics ∧
    ¬ (((105 : Int) : Rat) ≤ 98) := by
  refine ⟨⟨_, by unfold incident_patterns; exact
      List.mem_cons_of_mem _ (List.mem_cons_of_mem _ (List.mem_cons_of_mem _
        (List.mem_cons_of_mem _ (List.mem_cons_of_mem _ (List.Mem.head _))))),
      by decide⟩, by decide, ?_, by push_cast; norm_num⟩
  unfold generate_connection_leak_incident
  dsimp only
  have h105 : ((80 : Int) + 25) = 105 := by decide
  rw [h105]
  simp

/-- C5 (amended): for every configured service, pod, elapsed time and draw
outcome within the documented randint/uniform ranges: every metric emitted by
a fault generator other than database_slow and connection_leak (applied to a
service eligible for that fault kind) is nonnegative, with memory-usage in
[1, 98] and queue-depth in [100, 10000]; normal-operation metrics satisfy the
same bounds; but the database_slow and connection_leak generators emit the
uncapped memory value base_memory + draw (draw from [5,20] resp. [10,25]),
nonnegative yet able to exceed 98 — reaching 105 on user-db. -/
theorem C5_metric_bounds :
    (∀ svc ∈ SERVICES, ∀ (t : IncidentType) (cfg : PatternConfig),
      (t, cfg) ∈ incident_patterns → svc.name ∈ cfg.services →
      t ≠ .DATABASE_SLOW → t ≠ .CONNECTION_LEAK →
      ∀ (d : Draws), drawsOk t d = true →
      ∀ (pod : String) (e : Nat) (db : DbService),
      ∀ p ∈ (generate_incident_data db
          { svc with current_incident := some t } pod e d).metrics,
        metricWithinBounds p.1 p.2) ∧
    (∀ svc ∈ SERVICES, ∀ (t : IncidentType) (cfg : PatternConfig),
      (t, cfg) ∈ incident_patterns → svc.name ∈ cfg.services →
      (t = .DATABASE_SLOW ∨ t = .CONNECTION_LEAK) →
      ∀ (d : Draws), drawsOk t d = true →
      ∀ (pod : String) (e : Nat) (db : DbService),
      ∀ p ∈ (generate_incident_data db
          { svc with current_incident := some t } pod e d).metrics,
        0 ≤ p.2 ∧ (p.1 = "memory_usage" →
          p.2 = ((svc.base_memory + d.mem_draw : Int) : Rat))) ∧
    (∀ svc ∈ SERVICES, ∀ (cpu_d mem_d conn_d req_d : Int) (log_d : Rat)
      (mp : Nat) (pod : String) (db : DbService),
      normalDrawsOk cpu_d mem_d conn_d req_d = true →
      ∀ p ∈ (generate_normal_operation db svc pod cpu_d mem_d conn_d log_d
          req_d mp).metrics, metricWithinBounds p.1 p.2) ∧
    (("memory_usage", ((105 : Int) : Rat)) ∈
      (generate_connection_leak_incident failing_db
        { name := "user-db", service_type := "database", base_cpu := 50,
          base_memory := 80, base_connections := 50, pods := ["user-db-1"],
          current_incident := some .CONNECTION_LEAK }
        "user-db-1" 0 0 25).metrics ∧
      98 < (((105 : Int) : Rat))) := by
  have hgen : ∀ s ∈ SERVICES, 1 ≤ s.base_memory ∧ 0 ≤ s.base_cpu ∧
      5 ≤ s.base_connections ∧ s.base_memory ≤ 88 ∧ s.base_memory ≤ 98 := by
    decide
  refine ⟨?_, ?_, ?_, ?_, ?_⟩
  · intro svc hsvc t cfg hpat helig hne1 hne2 d hd pod e db
    obtain ⟨hb1, hc0, hcn, hb88, hb98⟩ := hgen svc hsvc
    simp only [incident_patterns, List.mem_cons, List.not_mem_nil, or_false] at hpat
    rcases hpat with h | h | h | h | h | h | h | h | h <;>
      (rw [Prod.mk.injEq] at h; obtain ⟨h1, h2⟩ := h; subst h1; subst h2;
       simp only [drawsOk, decide_eq_true_eq] at hd)
    · obtain ⟨d1, d2, d3, d4⟩ := hd
      exact memory_leak_metric_bounds db _ pod e _ _ hb1 hc0 d1 d3
    · obtain ⟨d1, d2, d3, d4, d5, d6⟩ := hd
      have hb83 : svc.base_memory ≤ 83 :=
        (by decide : ∀ s ∈ SERVICES,
          s.name ∈ ["user-api", "payment-service", "search-engine"] →
          s.base_memory ≤ 83) svc hsvc helig
      exact cpu_spike_metric_bounds db _ pod _ _ _ hb1 hb83 d1 d3 d4 d5
    · exact absurd rfl hne1
    · obtain ⟨d1, d2, d3, d4, d5, d6, d7, d8⟩ := hd
      exact network_latency_metric_bounds db _ pod _ _ _ _ hb1 hb88 hc0 d1 d3 d4 d5 d7
    · obtain ⟨d1, d2⟩ := hd
      exact disk_full_metric_bounds db _ pod e _ hb1 hb98 hc0 d1
    · exact absurd rfl hne2
    · obtain ⟨d1, d2, d3, d4⟩ := hd
      have hb83 : svc.base_memory ≤ 83 :=
        (by decide : ∀ s ∈ SERVICES,
          s.name ∈ ["message-queue", "order-processor"] →
          s.base_memory ≤ 83) svc hsvc helig
      exact queue_backlog_metric_bounds db _ pod e _ _ hb1 hb83 hc0 d1 d3 d4
    · obtain ⟨d1, d2, d3, d4, d5, d6, d7, d8⟩ := hd
      have hb73 : svc.base_memory ≤ 73 :=
        (by decide : ∀ s ∈ SERVICES,
          s.name ∈ ["user-api", "payment-service", "search-engine"] →
          s.base_memory ≤ 73) svc hsvc helig
      exact gc_pressure_metric_bounds db _ pod _ _ _ _ hb1 hb73 hc0 d1 d3 d4 d5 d7
    · obtain ⟨d1, d2, d3, d4, d5, d6, d7, d8⟩ := hd
      have hb83 : svc.base_memory ≤ 83 :=
        (by decide : ∀ s ∈ SERVICES,
          s.name ∈ ["user-api", "payment-service", "order-processor"] →
          s.base_memory ≤ 83) svc hsvc helig
      exact error_burst_metric_bounds db _ pod _ _ _ _ _ hb1 hb83 hc0 d1 d3 d4 d5
  · intro svc hsvc t cfg hpat helig hor d hd pod e db
    obtain ⟨hb1, hc0, hcn, hb88, hb98⟩ := hgen svc hsvc
    rcases hor with rfl | rfl <;>
      simp only [drawsOk, decide_eq_true_eq] at hd
    · obtain ⟨d1, d2, d3, d4, d5, d6, d7, d8⟩ := hd
      exact database_slow_metric_shape db _ pod e _ _ _ _
        (by omega : (0:Int) ≤ svc.base_memory) hc0
        (by omega : (0:Int) ≤ svc.base_connections) d1 d3 d5
    · obtain ⟨d1, d2, d3, d4⟩ := hd
      exact connection_leak_metric_shape db _ pod e _ _
        (by omega : (0:Int) ≤ svc.base_memory) hc0
        (by omega : (0:Int) ≤ svc.base_connections) d1 d3
  · intro svc hsvc cpu_d mem_d conn_d req_d log_d mp pod db hnd
    obtain ⟨hb1, hc0, hcn, hb88, hb98⟩ := hgen svc hsvc
    simp only [normalDrawsOk, decide_eq_true_eq] at hnd
    obtain ⟨n1, n2, n3, n4, n5, n6, n7, n8⟩ := hnd
    exact normal_operation_metric_bounds db svc pod _ _ _ log_d _ mp hb88 hcn n4 n5
  · unfold generate_connection_leak_incident
    dsimp only
    have h105 : ((80 : Int) + 25) = 105 := by decide
    rw [h105]
    simp
  · push_cast
    norm_num

theorem C5_metric_bounds_witness :
    (∀ p ∈ (generate_incident_data failing_db
        { name := "user-api", service_type := "web", base_cpu := 25,
          base_memory := 45, pods := ["user-api-1", "user-api-2"],
          current_incident := some .MEMORY_LEAK } "user-api-1" 0
        { cpu_draw := 5, gc_draw := 100 }).metrics,
      metricWithinBounds p.1 p.2) ∧
    (∀ p ∈ (generate_incident_data failing_db
        { name := "user-db", service_type := "database", base_cpu := 50,
          base_memory := 80, base_connections := 50, pods := ["user-db-1"],
          current_incident := some .CONNECTION_LEAK } "user-db-1" 0
        { cpu_draw := 0, mem_draw := 25 }).metrics,
      0 ≤ p.2 ∧ (p.1 = "memory_usage" →
        p.2 = ((80 + 25 : Int) : Rat))) ∧
    (∀ p ∈ (generate_normal_operation failing_db
        { name := "user-db", service_type := "database", base_cpu := 50,
          base_memory := 80, base_connections := 50, pods := ["user-db-1"] }
        "user-db-1" 0 0 0 1 10 0).metrics,
      metricWithinBounds p.1 p.2) :=
  ⟨C5_metric_bounds.1
    { name := "user-api", service_type := "web", base_cpu := 25,
      base_memory := 45, pods := ["user-api-1", "user-api-2"] }
    (by decide) .MEMORY_LEAK
    { duration_range := (120, 600), probability := 0.15,
      services := ["user-api", "payment-service", "order-processor"] }
    (by unfold incident_patterns; exact List.Mem.head _)
    (by decide) (by decide) (by decide) _ (by decide) "user-api-1" 0 failing_db,
   C5_metric_bounds.2.1
    { name := "user-db", service_type := "database", base_cpu := 50,
      base_memory := 80, base_connections := 50, pods := ["user-db-1"] }
    (by decide) .CONNECTION_LEAK
    { duration_range := (120, 480), probability := 0.10,
      services := ["user-api", "payment-service", "user-db"] }
    (by unfold incident_patterns; exact
      List.mem_cons_of_mem _ (List.mem_cons_of_mem _ (List.mem_cons_of_mem _
        (List.mem_cons_of_mem _ (List.mem_cons_of_mem _ (List.Mem.head _))))))
    (by decide) (Or.inr rfl) _ (by decide) "user-db-1" 0 failing_db,
   C5_metric_bounds.2.2.1
    { name := "user-db", service_type := "database", base_cpu := 50,
      base_memory := 80, base_connections := 50, pods := ["user-db-1"] }
    (by decide) 0 0 0 10 1 0 "user-db-1" failing_db (by decide)⟩

end SmartInfra
